import Mathlib

/-!
# Verification of the PX4 MAVLink mission manager (`mavlink_mission.cpp`)

Shallow embedding of `MavlinkMissionManager` from
`src/src/modules/mavlink/mavlink_mission.cpp`.  The manager's member and
static variables become fields of `WpmState`; external collaborators
(dataman persistent store, uORB pub/sub, the MAVLink channel, the
monotonic clock) become an explicit `Env` oracle plus a list of emitted
`Out` effects.  Wire `float`/`double` fields are modelled as rationals;
machine integers as `Nat`/`Int` with explicit wrapping where the source
can overflow (the `uint16_t` geofence update counter).
-/

namespace MavlinkMission

/-! ## MAVLink protocol constants (values from the MAVLink common dialect) -/

def MAV_MISSION_TYPE_MISSION : Nat := 0
def MAV_MISSION_TYPE_FENCE : Nat := 1
def MAV_MISSION_TYPE_RALLY : Nat := 2
def MAV_MISSION_TYPE_ALL : Nat := 255

def MAV_FRAME_GLOBAL : Nat := 0
def MAV_FRAME_MISSION : Nat := 2
def MAV_FRAME_GLOBAL_RELATIVE_ALT : Nat := 3
def MAV_FRAME_GLOBAL_INT : Nat := 5
def MAV_FRAME_GLOBAL_RELATIVE_ALT_INT : Nat := 6

def MAV_MISSION_ACCEPTED : Nat := 0
def MAV_MISSION_ERROR : Nat := 1
def MAV_MISSION_UNSUPPORTED_FRAME : Nat := 2
def MAV_MISSION_UNSUPPORTED : Nat := 3
def MAV_MISSION_NO_SPACE : Nat := 4

def MAV_COMP_ID_MISSIONPLANNER : Nat := 190
def MAV_COMP_ID_ALL : Nat := 0

/-! MAV_CMD numeric ids used by the item codec. -/

def MAV_CMD_NAV_WAYPOINT : Nat := 16
def MAV_CMD_NAV_LOITER_UNLIM : Nat := 17
def MAV_CMD_NAV_LOITER_TIME : Nat := 19
def MAV_CMD_NAV_RETURN_TO_LAUNCH : Nat := 20
def MAV_CMD_NAV_LAND : Nat := 21
def MAV_CMD_NAV_TAKEOFF : Nat := 22
def MAV_CMD_NAV_LOITER_TO_ALT : Nat := 31
def MAV_CMD_NAV_VTOL_TAKEOFF : Nat := 84
def MAV_CMD_NAV_VTOL_LAND : Nat := 85
def MAV_CMD_NAV_DELAY : Nat := 93
def MAV_CMD_DO_JUMP : Nat := 177
def MAV_CMD_DO_CHANGE_SPEED : Nat := 178
def MAV_CMD_DO_SET_SERVO : Nat := 183
def MAV_CMD_DO_LAND_START : Nat := 189
def MAV_CMD_DO_DIGICAM_CONTROL : Nat := 203
def MAV_CMD_DO_MOUNT_CONFIGURE : Nat := 204
def MAV_CMD_DO_MOUNT_CONTROL : Nat := 205
def MAV_CMD_DO_SET_CAM_TRIGG_DIST : Nat := 206
def MAV_CMD_DO_SET_CAM_TRIGG_INTERVAL : Nat := 214
def MAV_CMD_SET_CAMERA_MODE : Nat := 530
def MAV_CMD_DO_TRIGGER_CONTROL : Nat := 2003
def MAV_CMD_IMAGE_START_CAPTURE : Nat := 2000
def MAV_CMD_IMAGE_STOP_CAPTURE : Nat := 2001
def MAV_CMD_VIDEO_START_CAPTURE : Nat := 2500
def MAV_CMD_VIDEO_STOP_CAPTURE : Nat := 2501
def MAV_CMD_DO_VTOL_TRANSITION : Nat := 3000
def MAV_CMD_NAV_FENCE_RETURN_POINT : Nat := 5000
def MAV_CMD_NAV_FENCE_POLYGON_VERTEX_INCLUSION : Nat := 5001
def MAV_CMD_NAV_FENCE_POLYGON_VERTEX_EXCLUSION : Nat := 5002
def MAV_CMD_NAV_FENCE_CIRCLE_INCLUSION : Nat := 5003
def MAV_CMD_NAV_FENCE_CIRCLE_EXCLUSION : Nat := 5004
def MAV_CMD_NAV_RALLY_POINT : Nat := 5100

/-- Modelled from the spec: the `NAV_CMD` enum values from
`navigator/navigation.h` (not under `src/`) mirror the MAVLink command
ids for every command the codec maps by name; `NAV_CMD_INVALID` is a
sentinel outside that range. -/
def NAV_CMD_WAYPOINT : Nat := 16
def NAV_CMD_LOITER_UNLIMITED : Nat := 17
def NAV_CMD_LOITER_TIME_LIMIT : Nat := 19
def NAV_CMD_LAND : Nat := 21
def NAV_CMD_TAKEOFF : Nat := 22
def NAV_CMD_LOITER_TO_ALT : Nat := 31
def NAV_CMD_DO_JUMP : Nat := 177
def NAV_CMD_ROI : Nat := 80
def NAV_CMD_DO_SET_ROI : Nat := 201
def NAV_CMD_INVALID : Nat := 65535
def ORIGIN_MAVLINK : Nat := 0

def PX4_OK : Int := 0
def PX4_ERROR : Int := -1

/-- Modelled from the spec: `FILESYSTEM_ERRCOUNT_NOTIFY_LIMIT` from the
header (not under `src/`); the spec configuration section gives 2. -/
def FILESYSTEM_ERRCOUNT_NOTIFY_LIMIT : Nat := 2

/-- Modelled from the spec: rational approximation of pi used by the
float yaw conversion (`M_DEG_TO_RAD_F`, `_wrap_pi` live in `lib/geo`,
not under `src/`). -/
def piQ : ℚ := 314159265 / 100000000

def M_DEG_TO_RAD_F : ℚ := piQ / 180

def M_RAD_TO_DEG_F : ℚ := 180 / piQ

/-- Modelled from the spec: `_wrap_pi` from `lib/geo` (not under
`src/`); wraps an angle to the interval (-pi, pi]. -/
def wrapPi (x : ℚ) : ℚ := x - 2 * piQ * (⌈x / (2 * piQ) - 1/2⌉ : ℤ)

/-- Truncate an `Int` to `uint16_t` range, as C does on narrowing
conversion to an unsigned 16-bit argument. -/
def toU16 (i : Int) : Nat := (i % 65536).toNat

/-- Truncation of a rational toward zero, as a C cast from a floating
value to an integer type does. -/
def ratTrunc (q : ℚ) : Int := Int.tdiv q.num (q.den : Int)

/-! ## Data model -/

/-- `mission_s` (uORB topic `mission` / dataman `DM_KEY_MISSION_STATE`
record): the persisted mission header. -/
structure MissionS where
  dataman_id : Nat
  count : Nat
  current_seq : Int
  deriving DecidableEq

/-- `mission_stats_entry_s`: slot-0 stats header for fence/rally
namespaces. -/
structure MissionStatsEntry where
  num_items : Nat
  update_counter : Nat
  deriving DecidableEq

/-- `mission_item_s`: the internal item record produced by the codec.
The C struct packs several of these fields in unions; the claims never
observe the aliasing, so the fields are kept separate here. -/
structure MissionItemRec where
  nav_cmd : Nat := 0
  lat : ℚ := 0
  lon : ℚ := 0
  altitude : ℚ := 0
  altitude_is_relative : Bool := false
  yaw : ℚ := 0
  loiter_radius : ℚ := 0
  time_inside : ℚ := 0
  acceptance_radius : ℚ := 0
  loiter_exit_xtrack : Bool := false
  force_heading : Bool := false
  pitch_min : ℚ := 0
  vertex_count : Nat := 0
  circle_radius : ℚ := 0
  do_jump_mission_index : ℚ := 0
  do_jump_repeat_count : ℚ := 0
  do_jump_current_count : ℚ := 0
  autocontinue : Nat := 0
  origin : Nat := 0
  frame : Nat := 0
  param0 : ℚ := 0
  param1 : ℚ := 0
  param2 : ℚ := 0
  param3 : ℚ := 0
  param4 : ℚ := 0
  param5 : ℚ := 0
  param6 : ℚ := 0
  deriving DecidableEq

/-- `mission_fence_point_s`: per-slot fence record. -/
structure FencePointRec where
  nav_cmd : Nat := 0
  frame : Nat := 0
  lat : ℚ := 0
  lon : ℚ := 0
  alt : ℚ := 0
  vertex_count : Nat := 0
  circle_radius : ℚ := 0
  deriving DecidableEq

/-- `mission_save_point_s`: per-slot rally/safe point record. -/
structure SafePointRec where
  frame : Nat
  lat : ℚ
  lon : ℚ
  alt : ℚ
  deriving DecidableEq

/-- Dataman keys used by the manager.  `waypoints id` is
`DM_KEY_WAYPOINTS_OFFBOARD(id)`. -/
inductive DmKey where
  | missionState
  | fencePoints
  | safePoints
  | waypoints (id : Nat)
  deriving DecidableEq

/-- Payload of a dataman write. -/
inductive DmData where
  | mission (m : MissionS)
  | stats (s : MissionStatsEntry)
  | item (it : MissionItemRec)
  | fencePoint (p : FencePointRec)
  | safePoint (p : SafePointRec)
  deriving DecidableEq

/-- Wire `MISSION_ITEM` / `MISSION_ITEM_INT`.  The source decodes both
variants into one struct and reinterprets `x`,`y` as `int32_t` in int
mode; here the message carries both views of those bytes. -/
structure ItemMsg where
  srcSys : Nat
  srcComp : Nat
  target_system : Nat
  target_component : Nat
  seq : Nat
  frame : Nat
  command : Nat
  current : Nat
  autocontinue : Nat
  param1 : ℚ
  param2 : ℚ
  param3 : ℚ
  param4 : ℚ
  x : ℚ
  y : ℚ
  xInt : Int
  yInt : Int
  z : ℚ
  mission_type : Nat
  deriving DecidableEq

/-- Wire `MISSION_REQUEST` / `MISSION_REQUEST_INT` (decoded to the same
struct in the source). -/
structure RequestMsg where
  srcSys : Nat
  srcComp : Nat
  target_system : Nat
  target_component : Nat
  seq : Nat
  mission_type : Nat
  deriving DecidableEq

/-- Wire `MISSION_ACK`. -/
structure AckMsg where
  srcSys : Nat
  srcComp : Nat
  target_system : Nat
  target_component : Nat
  type : Nat
  mission_type : Nat
  deriving DecidableEq

/-- Wire `MISSION_SET_CURRENT`. -/
structure SetCurrentMsg where
  srcSys : Nat
  srcComp : Nat
  target_system : Nat
  target_component : Nat
  seq : Nat
  deriving DecidableEq

/-- Wire `MISSION_REQUEST_LIST`. -/
structure RequestListMsg where
  srcSys : Nat
  srcComp : Nat
  target_system : Nat
  target_component : Nat
  mission_type : Nat
  deriving DecidableEq

/-- Wire `MISSION_COUNT`. -/
structure CountMsg where
  srcSys : Nat
  srcComp : Nat
  target_system : Nat
  target_component : Nat
  count : Nat
  mission_type : Nat
  deriving DecidableEq

/-- Wire `MISSION_CLEAR_ALL`. -/
structure ClearAllMsg where
  srcSys : Nat
  srcComp : Nat
  target_system : Nat
  target_component : Nat
  mission_type : Nat
  deriving DecidableEq

/-- `mission_result_s` fields read by `send()`. -/
structure MissionResult where
  seq_current : Int
  seq_reached : Int
  reached : Bool
  item_do_jump_changed : Bool
  item_changed_index : Int
  deriving DecidableEq

/-- Encoded outbound wire item produced by
`format_mavlink_mission_item` (both float and int views kept, as for
`ItemMsg`). -/
structure WireItemOut where
  frame : Nat := 0
  command : Nat := 0
  autocontinue : Nat := 0
  param1 : ℚ := 0
  param2 : ℚ := 0
  param3 : ℚ := 0
  param4 : ℚ := 0
  x : ℚ := 0
  y : ℚ := 0
  xInt : Int := 0
  yInt : Int := 0
  z : ℚ := 0
  deriving DecidableEq

/-- Observable effects of one handler invocation, in emission order. -/
inductive Out where
  | missionAck (targetSys targetComp ackType missionType : Nat)
  | missionCurrent (seq : Nat)
  | missionCount (targetSys targetComp count missionType : Nat)
  | missionItemOut (intMode : Bool) (targetSys targetComp seq current : Nat) (w : WireItemOut)
  | missionRequest (intMode : Bool) (targetSys targetComp seq missionType : Nat)
  | missionItemReached (seq : Nat)
  | statustext (s : String)
  | dmWrite (key : DmKey) (idx : Nat) (val : DmData)
  | dmLock
  | dmUnlock
  | orbPublish (m : MissionS)
  deriving DecidableEq

/-- Environment oracle: dataman read/write/lock results, our MAVLink
identity, the per-type capacity table (`MAX_COUNT` lives in the header,
not under `src/`; the spec only names it as configuration, so it stays
a parameter), and the pending `mission_result` update. -/
structure Env where
  sysid : Nat
  compid : Nat
  maxCount : Nat → Nat
  dmWriteOk : DmKey → Nat → Bool
  dmRead : DmKey → Nat → Option DmData
  dmLockOk : Bool
  missionResult : Option MissionResult

/-- `MAVLINK_WPM_STATES` (the three used by the manager). -/
inductive WpmProtState where
  | idle
  | sendlist
  | getlist
  deriving DecidableEq

/-- All member and static variables of `MavlinkMissionManager` the
embedded handlers read or write.  `_count[3]` becomes three fields;
times are microseconds.  `slow_rate_last` is the state of
`_slow_rate_limiter` (its class is not under `src/`; modelled from the
spec as one token per `slow_rate_interval`). -/
structure WpmState where
  dataman_id : Nat
  countMission : Nat
  countFence : Nat
  countRally : Nat
  current_seq : Int
  last_reached : Int
  transfer_in_progress : Bool
  geofence_update_counter : Nat
  filesystem_errcount : Nat
  state : WpmProtState
  mission_type : Nat
  time_last_recv : Nat
  time_last_sent : Nat
  time_last_reached : Nat
  action_timeout : Nat
  retry_timeout : Nat
  int_mode : Bool
  my_dataman_id : Nat
  transfer_dataman_id : Nat
  transfer_count : Nat
  transfer_seq : Int
  transfer_current_seq : Int
  transfer_partner_sysid : Nat
  transfer_partner_compid : Nat
  geofence_locked : Bool
  slow_rate_last : Nat
  slow_rate_interval : Nat
  deriving DecidableEq

/-- `_count[(uint8)t]` for an in-range index (all unguarded accesses in
the source use a constant in-range index; guarded ones go through
`current_item_count`). -/
def WpmState.countIdx (s : WpmState) : Nat → Nat
  | 0 => s.countMission
  | 1 => s.countFence
  | 2 => s.countRally
  | _ => 0

/-- Write `_count[(uint8)t]` for an in-range index. -/
def WpmState.setCountIdx (s : WpmState) (t n : Nat) : WpmState :=
  match t with
  | 0 => { s with countMission := n }
  | 1 => { s with countFence := n }
  | 2 => { s with countRally := n }
  | _ => s

/-- `CHECK_SYSID_COMPID_MISSION`: target gating macro. -/
def checkTarget (env : Env) (targetSys targetComp : Nat) : Bool :=
  targetSys == env.sysid &&
    (targetComp == env.compid || targetComp == MAV_COMP_ID_MISSIONPLANNER ||
     targetComp == MAV_COMP_ID_ALL)

/-- `current_max_item_count()`: capacity for the current mission type,
0 with an error log when the type is outside the `MAX_COUNT` array. -/
def current_max_item_count (s : WpmState) (env : Env) : Nat :=
  if s.mission_type < 3 then env.maxCount s.mission_type else 0

/-- `current_item_count()`: stored count for the current mission type,
0 with an error log when the type is outside the `_count` array. -/
def current_item_count (s : WpmState) : Nat :=
  if s.mission_type < 3 then s.countIdx s.mission_type else 0

/-! ## Item codec -/

/-- `parse_mavlink_mission_item`: decode a wire item into the internal
record.  Returns the possibly-updated `_int_mode`, the produced record
(the caller zero-initialises the out-parameter, so failures leave the
untouched fields at their defaults), and the `MAV_MISSION_RESULT`
return code. -/
def parse_mavlink_mission_item (int_mode : Bool) (w : ItemMsg) :
    Bool × MissionItemRec × Nat :=
  if w.frame == MAV_FRAME_GLOBAL || w.frame == MAV_FRAME_GLOBAL_RELATIVE_ALT ||
     (int_mode && (w.frame == MAV_FRAME_GLOBAL_INT ||
                   w.frame == MAV_FRAME_GLOBAL_RELATIVE_ALT_INT)) then
    let im := if w.frame == MAV_FRAME_GLOBAL_INT ||
                 w.frame == MAV_FRAME_GLOBAL_RELATIVE_ALT_INT then true else int_mode
    let mi0 : MissionItemRec :=
      if im then
        { lat := (w.xInt : ℚ) * (1 / 10000000), lon := (w.yInt : ℚ) * (1 / 10000000) }
      else
        { lat := w.x, lon := w.y }
    let mi1 := { mi0 with altitude := w.z }
    let mi2 :=
      if w.frame == MAV_FRAME_GLOBAL || w.frame == MAV_FRAME_GLOBAL_INT then
        { mi1 with altitude_is_relative := false }
      else if w.frame == MAV_FRAME_GLOBAL_RELATIVE_ALT ||
              w.frame == MAV_FRAME_GLOBAL_RELATIVE_ALT_INT then
        { mi1 with altitude_is_relative := true }
      else mi1
    let mi3 := { mi2 with time_inside := 0 }
    let step :=
      if w.command == MAV_CMD_NAV_WAYPOINT then
        some { mi3 with nav_cmd := NAV_CMD_WAYPOINT, time_inside := w.param1,
                        acceptance_radius := w.param2,
                        yaw := wrapPi (w.param4 * M_DEG_TO_RAD_F) }
      else if w.command == MAV_CMD_NAV_LOITER_UNLIM then
        some { mi3 with nav_cmd := NAV_CMD_LOITER_UNLIMITED, loiter_radius := w.param3,
                        yaw := wrapPi (w.param4 * M_DEG_TO_RAD_F) }
      else if w.command == MAV_CMD_NAV_LOITER_TIME then
        some { mi3 with nav_cmd := NAV_CMD_LOITER_TIME_LIMIT, time_inside := w.param1,
                        loiter_radius := w.param3, loiter_exit_xtrack := decide (w.param4 > 0) }
      else if w.command == MAV_CMD_NAV_LAND then
        some { mi3 with nav_cmd := NAV_CMD_LAND,
                        yaw := wrapPi (w.param4 * M_DEG_TO_RAD_F) }
      else if w.command == MAV_CMD_NAV_TAKEOFF then
        some { mi3 with nav_cmd := NAV_CMD_TAKEOFF, pitch_min := w.param1,
                        yaw := wrapPi (w.param4 * M_DEG_TO_RAD_F) }
      else if w.command == MAV_CMD_NAV_LOITER_TO_ALT then
        some { mi3 with nav_cmd := NAV_CMD_LOITER_TO_ALT,
                        force_heading := decide (w.param1 > 0), loiter_radius := w.param2,
                        loiter_exit_xtrack := decide (w.param4 > 0) }
      else if w.command == MAV_CMD_NAV_VTOL_TAKEOFF || w.command == MAV_CMD_NAV_VTOL_LAND then
        some { mi3 with nav_cmd := w.command,
                        yaw := wrapPi (w.param4 * M_DEG_TO_RAD_F) }
      else if w.command == MAV_CMD_NAV_FENCE_RETURN_POINT then
        some { mi3 with nav_cmd := w.command }
      else if w.command == MAV_CMD_NAV_FENCE_POLYGON_VERTEX_INCLUSION ||
              w.command == MAV_CMD_NAV_FENCE_POLYGON_VERTEX_EXCLUSION then
        some { mi3 with nav_cmd := w.command,
                        vertex_count := toU16 (ratTrunc (w.param1 + 1/2)) }
      else if w.command == MAV_CMD_NAV_FENCE_CIRCLE_INCLUSION ||
              w.command == MAV_CMD_NAV_FENCE_CIRCLE_EXCLUSION then
        some { mi3 with nav_cmd := w.command, circle_radius := w.param1 }
      else if w.command == MAV_CMD_NAV_RALLY_POINT then
        some { mi3 with nav_cmd := w.command }
      else none
    (im,
     match step with
     | none => ({ mi3 with nav_cmd := NAV_CMD_INVALID }, MAV_MISSION_UNSUPPORTED)
     | some mi4 =>
         ({ mi4 with frame := w.frame, autocontinue := w.autocontinue,
                     origin := ORIGIN_MAVLINK }, MAV_MISSION_ACCEPTED))
  else if w.frame == MAV_FRAME_MISSION then
    let mi0 : MissionItemRec :=
      { param0 := w.param1, param1 := w.param2, param2 := w.param3, param3 := w.param4,
        param4 := w.x, param5 := w.y, param6 := w.z }
    let step :=
      if w.command == MAV_CMD_DO_JUMP then
        some { mi0 with nav_cmd := NAV_CMD_DO_JUMP, do_jump_mission_index := w.param1,
                        do_jump_current_count := 0, do_jump_repeat_count := w.param2 }
      else if w.command == MAV_CMD_DO_CHANGE_SPEED || w.command == MAV_CMD_DO_SET_SERVO ||
              w.command == MAV_CMD_DO_LAND_START || w.command == MAV_CMD_DO_TRIGGER_CONTROL ||
              w.command == MAV_CMD_DO_DIGICAM_CONTROL ||
              w.command == MAV_CMD_DO_MOUNT_CONFIGURE ||
              w.command == MAV_CMD_DO_MOUNT_CONTROL ||
              w.command == MAV_CMD_IMAGE_START_CAPTURE ||
              w.command == MAV_CMD_IMAGE_STOP_CAPTURE ||
              w.command == MAV_CMD_VIDEO_START_CAPTURE ||
              w.command == MAV_CMD_VIDEO_STOP_CAPTURE ||
              w.command == NAV_CMD_DO_SET_ROI || w.command == NAV_CMD_ROI ||
              w.command == MAV_CMD_DO_SET_CAM_TRIGG_DIST ||
              w.command == MAV_CMD_DO_SET_CAM_TRIGG_INTERVAL ||
              w.command == MAV_CMD_SET_CAMERA_MODE ||
              w.command == MAV_CMD_DO_VTOL_TRANSITION ||
              w.command == MAV_CMD_NAV_DELAY ||
              w.command == MAV_CMD_NAV_RETURN_TO_LAUNCH then
        some { mi0 with nav_cmd := w.command }
      else none
    (int_mode,
     match step with
     | none => ({ mi0 with nav_cmd := NAV_CMD_INVALID }, MAV_MISSION_UNSUPPORTED)
     | some mi1 =>
         ({ mi1 with frame := MAV_FRAME_MISSION, autocontinue := w.autocontinue,
                     origin := ORIGIN_MAVLINK }, MAV_MISSION_ACCEPTED))
  else
    (int_mode, {}, MAV_MISSION_UNSUPPORTED_FRAME)

/-- `format_mavlink_mission_item`: encode an internal record into the
wire item.  Returns the (possibly partially filled) wire struct and
whether the function returned `PX4_OK`; the caller
(`send_mission_item`) ignores the return code and sends the struct
regardless, exactly as the source does. -/
def format_mavlink_mission_item (int_mode : Bool) (mi : MissionItemRec) :
    WireItemOut × Bool :=
  let w0 : WireItemOut :=
    { frame := mi.frame, command := mi.nav_cmd, autocontinue := mi.autocontinue }
  if mi.frame == MAV_FRAME_MISSION then
    let w1 := { w0 with param1 := mi.param0, param2 := mi.param1, param3 := mi.param2,
                        param4 := mi.param3, x := mi.param4, y := mi.param5, z := mi.param6 }
    if mi.nav_cmd == NAV_CMD_DO_JUMP then
      ({ w1 with param1 := mi.do_jump_mission_index, param2 := mi.do_jump_repeat_count }, true)
    else if mi.nav_cmd == MAV_CMD_DO_CHANGE_SPEED || mi.nav_cmd == MAV_CMD_DO_SET_SERVO ||
            mi.nav_cmd == MAV_CMD_DO_LAND_START || mi.nav_cmd == MAV_CMD_DO_TRIGGER_CONTROL ||
            mi.nav_cmd == MAV_CMD_DO_DIGICAM_CONTROL ||
            mi.nav_cmd == MAV_CMD_IMAGE_START_CAPTURE ||
            mi.nav_cmd == MAV_CMD_IMAGE_STOP_CAPTURE ||
            mi.nav_cmd == MAV_CMD_VIDEO_START_CAPTURE ||
            mi.nav_cmd == MAV_CMD_VIDEO_STOP_CAPTURE ||
            mi.nav_cmd == MAV_CMD_DO_MOUNT_CONFIGURE ||
            mi.nav_cmd == MAV_CMD_DO_MOUNT_CONTROL ||
            mi.nav_cmd == NAV_CMD_DO_SET_ROI || mi.nav_cmd == NAV_CMD_ROI ||
            mi.nav_cmd == MAV_CMD_DO_SET_CAM_TRIGG_DIST ||
            mi.nav_cmd == MAV_CMD_DO_SET_CAM_TRIGG_INTERVAL ||
            mi.nav_cmd == MAV_CMD_SET_CAMERA_MODE ||
            mi.nav_cmd == MAV_CMD_DO_VTOL_TRANSITION then
      (w1, true)
    else
      (w1, false)
  else
    let w1 := { w0 with param1 := 0, param2 := 0, param3 := 0, param4 := 0 }
    let w2 :=
      if int_mode then
        { w1 with xInt := ratTrunc (mi.lat * 10000000), yInt := ratTrunc (mi.lon * 10000000) }
      else
        { w1 with x := mi.lat, y := mi.lon }
    let w3 := { w2 with z := mi.altitude }
    let w4 :=
      if mi.altitude_is_relative then
        { w3 with frame := if int_mode then MAV_FRAME_GLOBAL_RELATIVE_ALT_INT
                           else MAV_FRAME_GLOBAL_RELATIVE_ALT }
      else
        { w3 with frame := if int_mode then MAV_FRAME_GLOBAL_INT else MAV_FRAME_GLOBAL }
    if mi.nav_cmd == NAV_CMD_WAYPOINT then
      ({ w4 with param1 := mi.time_inside, param2 := mi.acceptance_radius,
                 param4 := mi.yaw * M_RAD_TO_DEG_F }, true)
    else if mi.nav_cmd == NAV_CMD_LOITER_UNLIMITED then
      ({ w4 with param3 := mi.loiter_radius, param4 := mi.yaw * M_RAD_TO_DEG_F }, true)
    else if mi.nav_cmd == NAV_CMD_LOITER_TIME_LIMIT then
      ({ w4 with param1 := mi.time_inside, param3 := mi.loiter_radius,
                 param4 := if mi.loiter_exit_xtrack then 1 else 0 }, true)
    else if mi.nav_cmd == NAV_CMD_LAND then
      ({ w4 with param4 := mi.yaw * M_RAD_TO_DEG_F }, true)
    else if mi.nav_cmd == NAV_CMD_TAKEOFF then
      ({ w4 with param1 := mi.pitch_min, param4 := mi.yaw * M_RAD_TO_DEG_F }, true)
    else if mi.nav_cmd == NAV_CMD_LOITER_TO_ALT then
      ({ w4 with param1 := if mi.force_heading then 1 else 0, param2 := mi.loiter_radius,
                 param4 := if mi.loiter_exit_xtrack then 1 else 0 }, true)
    else if mi.nav_cmd == MAV_CMD_NAV_VTOL_TAKEOFF || mi.nav_cmd == MAV_CMD_NAV_VTOL_LAND then
      ({ w4 with param4 := mi.yaw * M_RAD_TO_DEG_F }, true)
    else if mi.nav_cmd == MAV_CMD_NAV_FENCE_RETURN_POINT then
      (w4, true)
    else if mi.nav_cmd == MAV_CMD_NAV_FENCE_POLYGON_VERTEX_INCLUSION ||
            mi.nav_cmd == MAV_CMD_NAV_FENCE_POLYGON_VERTEX_EXCLUSION then
      ({ w4 with param1 := (mi.vertex_count : ℚ) }, true)
    else if mi.nav_cmd == MAV_CMD_NAV_FENCE_CIRCLE_INCLUSION ||
            mi.nav_cmd == MAV_CMD_NAV_FENCE_CIRCLE_EXCLUSION then
      ({ w4 with param1 := mi.circle_radius }, true)
    else if mi.nav_cmd == MAV_CMD_NAV_RALLY_POINT then
      (w4, true)
    else
      (w4, false)

/-! ## Persistence adapter -/

/-- `update_active_mission`: write the mission header to dataman and,
on success, update the shared active state and publish
`offboard_mission`.  Returns (new state, outputs, returned `PX4_OK`). -/
def update_active_mission (s : WpmState) (env : Env) (dataman_id count : Nat) (seq : Int) :
    WpmState × List Out × Bool :=
  let mission : MissionS := ⟨dataman_id, count, seq⟩
  let w := Out.dmWrite DmKey.missionState 0 (DmData.mission mission)
  if env.dmWriteOk DmKey.missionState 0 then
    ({ s with dataman_id := dataman_id, countMission := count, current_seq := seq,
              my_dataman_id := dataman_id },
     [w, Out.orbPublish mission], true)
  else
    ({ s with filesystem_errcount := s.filesystem_errcount + 1 },
     w :: (if s.filesystem_errcount < FILESYSTEM_ERRCOUNT_NOTIFY_LIMIT then
             [Out.statustext "Mission storage: Unable to write to microSD"] else []),
     false)

/-- `update_geofence_count`: pre-increment the process-wide
`_geofence_update_counter` (a `uint16_t`, hence mod 2^16), then attempt
the stats write; only a successful write updates `_count[FENCE]`. -/
def update_geofence_count (s : WpmState) (env : Env) (count : Nat) :
    WpmState × List Out × Bool :=
  let counter := (s.geofence_update_counter + 1) % 65536
  let s1 := { s with geofence_update_counter := counter }
  let w := Out.dmWrite DmKey.fencePoints 0 (DmData.stats ⟨count, counter⟩)
  if env.dmWriteOk DmKey.fencePoints 0 then
    ({ s1 with countFence := count }, [w], true)
  else
    ({ s1 with filesystem_errcount := s1.filesystem_errcount + 1 },
     w :: (if s1.filesystem_errcount < FILESYSTEM_ERRCOUNT_NOTIFY_LIMIT then
             [Out.statustext "Mission storage: Unable to write to microSD"] else []),
     false)

/-- `update_safepoint_count` (the source leaves `update_counter`
uninitialised for safe points; modelled as 0). -/
def update_safepoint_count (s : WpmState) (env : Env) (count : Nat) :
    WpmState × List Out × Bool :=
  let w := Out.dmWrite DmKey.safePoints 0 (DmData.stats ⟨count, 0⟩)
  if env.dmWriteOk DmKey.safePoints 0 then
    ({ s with countRally := count }, [w], true)
  else
    ({ s with filesystem_errcount := s.filesystem_errcount + 1 },
     w :: (if s.filesystem_errcount < FILESYSTEM_ERRCOUNT_NOTIFY_LIMIT then
             [Out.statustext "Mission storage: Unable to write to microSD"] else []),
     false)

/-- `load_geofence_stats`: refresh `_count[FENCE]` and the update
counter from the slot-0 stats record. -/
def load_geofence_stats (s : WpmState) (env : Env) : WpmState :=
  match env.dmRead DmKey.fencePoints 0 with
  | some (DmData.stats st) =>
      { s with countFence := st.num_items, geofence_update_counter := st.update_counter }
  | _ => s

/-- `load_safepoint_stats`. -/
def load_safepoint_stats (s : WpmState) (env : Env) : WpmState :=
  match env.dmRead DmKey.safePoints 0 with
  | some (DmData.stats st) => { s with countRally := st.num_items }
  | _ => s

/-! ## Outbound message helpers -/

/-- `send_mission_ack`. -/
def send_mission_ack (s : WpmState) (sysid compid ackType : Nat) : Out :=
  Out.missionAck sysid compid ackType s.mission_type

/-- `send_mission_current`: emit `MISSION_CURRENT(seq)` when `seq` is in
range; silently skip when the list is empty and `seq == 0`; otherwise
send a critical status text. -/
def send_mission_current (s : WpmState) (seq : Nat) : List Out :=
  if seq < s.countMission then
    [Out.missionCurrent seq]
  else if seq == 0 && s.countMission == 0 then
    []
  else
    [Out.statustext "ERROR: wp index out of bounds"]

/-- `send_mission_count` (stamps `_time_last_sent`). -/
def send_mission_count (s : WpmState) (now : Nat) (sysid compid count missionType : Nat) :
    WpmState × List Out :=
  ({ s with time_last_sent := now },
   [Out.missionCount sysid compid (count % 65536) missionType])

/-- `send_mission_item`: read the item for the current mission type
from dataman and emit it in the current encoding; on a read failure,
send `ACK(ERROR)` to the transfer partner plus a rate-limited status
text. -/
def send_mission_item (s : WpmState) (env : Env) (now : Nat) (sysid compid seq : Nat) :
    WpmState × List Out :=
  let read :
      Option MissionItemRec × List Out :=
    if s.mission_type == MAV_MISSION_TYPE_MISSION then
      match env.dmRead (DmKey.waypoints s.dataman_id) seq with
      | some (DmData.item mi) => (some mi, [])
      | _ => (none, [])
    else if s.mission_type == MAV_MISSION_TYPE_FENCE then
      match env.dmRead DmKey.fencePoints (seq + 1) with
      | some (DmData.fencePoint p) =>
          let mi : MissionItemRec :=
            { nav_cmd := p.nav_cmd, frame := p.frame, lat := p.lat, lon := p.lon,
              altitude := p.alt }
          let mi :=
            if p.nav_cmd == MAV_CMD_NAV_FENCE_POLYGON_VERTEX_INCLUSION ||
               p.nav_cmd == MAV_CMD_NAV_FENCE_POLYGON_VERTEX_EXCLUSION then
              { mi with vertex_count := p.vertex_count }
            else
              { mi with circle_radius := p.circle_radius }
          (some mi, [])
      | _ => (none, [])
    else if s.mission_type == MAV_MISSION_TYPE_RALLY then
      match env.dmRead DmKey.safePoints (seq + 1) with
      | some (DmData.safePoint p) =>
          (some { nav_cmd := MAV_CMD_NAV_RALLY_POINT, frame := p.frame, lat := p.lat,
                  lon := p.lon, altitude := p.alt }, [])
      | _ => (none, [])
    else
      (none, [Out.statustext "Received unknown mission type, abort."])
  match read with
  | (some mi, pre) =>
      let wire := (format_mavlink_mission_item s.int_mode mi).1
      ({ s with time_last_sent := now },
       pre ++ [Out.missionItemOut s.int_mode sysid compid seq
                 (if s.current_seq == (seq : Int) then 1 else 0) wire])
  | (none, pre) =>
      ({ s with filesystem_errcount := s.filesystem_errcount + 1 },
       pre ++ [send_mission_ack s s.transfer_partner_sysid s.transfer_partner_compid
                 MAV_MISSION_ERROR] ++
         (if s.filesystem_errcount < FILESYSTEM_ERRCOUNT_NOTIFY_LIMIT then
            [Out.statustext "Mission storage: Unable to read from microSD"] else []))

/-- `send_mission_request`: emit `MISSION_REQUEST(_INT)(seq)` when
`seq` is below the capacity of the current type; otherwise only a
critical status text. -/
def send_mission_request (s : WpmState) (env : Env) (now : Nat) (sysid compid seq : Nat) :
    WpmState × List Out :=
  if seq < current_max_item_count s env then
    ({ s with time_last_sent := now },
     [Out.missionRequest s.int_mode sysid compid seq s.mission_type])
  else
    (s, [Out.statustext "ERROR: Waypoint index exceeds list capacity"])

/-- `send_mission_item_reached`. -/
def send_mission_item_reached (seq : Nat) : List Out :=
  [Out.missionItemReached seq]

/-- `switch_to_idle_state`: the unique way the source re-enters IDLE;
always releases the fence lock when held. -/
def switch_to_idle_state (s : WpmState) : WpmState × List Out :=
  if s.geofence_locked then
    ({ s with geofence_locked := false, state := WpmProtState.idle }, [Out.dmUnlock])
  else
    ({ s with state := WpmProtState.idle }, [])

/-! ## Message handlers -/

/-- `handle_mission_ack`. -/
def handle_mission_ack (s : WpmState) (env : Env) (now : Nat) (m : AckMsg) :
    WpmState × List Out :=
  if checkTarget env m.target_system m.target_component then
    if m.srcSys == s.transfer_partner_sysid && m.srcComp == s.transfer_partner_compid then
      if s.state == WpmProtState.sendlist && s.mission_type == m.mission_type then
        let s1 := { s with time_last_recv := now }
        let pre :=
          if s1.transfer_seq == (current_item_count s1 : Int) then ([] : List Out)
          else [Out.statustext "WPM: ERR: not all items sent -> IDLE"]
        let r := switch_to_idle_state s1
        (r.1, pre ++ r.2)
      else if s.state == WpmProtState.getlist then
        if s.int_mode && m.type != MAV_MISSION_ACCEPTED then
          ({ s with int_mode := false }, [])
        else if m.type != MAV_MISSION_ACCEPTED then
          ({ s with int_mode := true }, [])
        else
          (s, [])
      else
        (s, [])
    else
      (s, [Out.statustext "REJ. WP CMD: partner id mismatch"])
  else
    (s, [])

/-- `handle_mission_set_current`. -/
def handle_mission_set_current (s : WpmState) (env : Env) (now : Nat) (m : SetCurrentMsg) :
    WpmState × List Out :=
  if checkTarget env m.target_system m.target_component then
    if s.state == WpmProtState.idle then
      let s1 := { s with time_last_recv := now }
      if m.seq < s1.countMission then
        let r := update_active_mission s1 env s1.dataman_id s1.countMission (m.seq : Int)
        if r.2.2 then (r.1, r.2.1)
        else (r.1, r.2.1 ++ [Out.statustext "WPM: WP CURR CMD: Error setting ID"])
      else
        (s1, [Out.statustext "WPM: WP CURR CMD: Not in list"])
    else
      (s, [Out.statustext "WPM: IGN WP CURR CMD: Busy"])
  else
    (s, [])

/-- `handle_mission_request_list`. -/
def handle_mission_request_list (s : WpmState) (env : Env) (now : Nat) (m : RequestListMsg) :
    WpmState × List Out :=
  if checkTarget env m.target_system m.target_component then
    if s.state == WpmProtState.idle ||
       (s.state == WpmProtState.sendlist && s.mission_type == m.mission_type) then
      let s1 := { s with time_last_recv := now, state := WpmProtState.sendlist,
                         mission_type := m.mission_type }
      let s2 :=
        if s1.mission_type == MAV_MISSION_TYPE_FENCE then load_geofence_stats s1 env
        else if s1.mission_type == MAV_MISSION_TYPE_RALLY then load_safepoint_stats s1 env
        else s1
      let s3 := { s2 with transfer_seq := 0, transfer_count := current_item_count s2,
                          transfer_partner_sysid := m.srcSys,
                          transfer_partner_compid := m.srcComp }
      send_mission_count s3 now m.srcSys m.srcComp s3.transfer_count s3.mission_type
    else
      (s, [Out.statustext "IGN REQUEST LIST: Busy"])
  else
    (s, [])

/-- `handle_mission_request_both`: common body of
`handle_mission_request` and `handle_mission_request_int`. -/
def handle_mission_request_both (s : WpmState) (env : Env) (now : Nat) (m : RequestMsg) :
    WpmState × List Out :=
  if checkTarget env m.target_system m.target_component then
    if m.srcSys == s.transfer_partner_sysid && m.srcComp == s.transfer_partner_compid then
      if s.state == WpmProtState.sendlist then
        if s.mission_type != m.mission_type then
          (s, [])
        else
          let s1 := { s with time_last_recv := now }
          let afterSeq : WpmState → WpmState × List Out := fun sx =>
            if m.seq < current_item_count sx then
              send_mission_item sx env now sx.transfer_partner_sysid
                sx.transfer_partner_compid m.seq
            else
              let r := switch_to_idle_state sx
              (r.1, r.2 ++
                [send_mission_ack r.1 r.1.transfer_partner_sysid r.1.transfer_partner_compid
                   MAV_MISSION_ERROR,
                 Out.statustext "WPM: REJ. CMD: Req. WP was unexpected"])
          if (m.seq : Int) == s1.transfer_seq &&
             s1.transfer_seq < (s1.transfer_count : Int) then
            afterSeq { s1 with transfer_seq := s1.transfer_seq + 1 }
          else if (m.seq : Int) == s1.transfer_seq - 1 then
            afterSeq s1
          else
            let r := switch_to_idle_state s1
            (r.1, r.2 ++
              [send_mission_ack r.1 r.1.transfer_partner_sysid r.1.transfer_partner_compid
                 MAV_MISSION_ERROR,
               Out.statustext "WPM: REJ. CMD: Req. WP was unexpected"])
      else if s.state == WpmProtState.idle then
        (s, [])
      else
        (s, [Out.statustext "WPM: REJ. CMD: Busy"])
    else
      (s, [Out.statustext "WPM: REJ. CMD: partner id mismatch"])
  else
    (s, [])

/-- `handle_mission_request`: a float-mode request switches the
endpoint out of int mode, then the common body runs. -/
def handle_mission_request (s : WpmState) (env : Env) (now : Nat) (m : RequestMsg) :
    WpmState × List Out :=
  handle_mission_request_both { s with int_mode := false } env now m

/-- `handle_mission_request_int`. -/
def handle_mission_request_int (s : WpmState) (env : Env) (now : Nat) (m : RequestMsg) :
    WpmState × List Out :=
  handle_mission_request_both { s with int_mode := true } env now m

/-- `handle_mission_count`. -/
def handle_mission_count (s : WpmState) (env : Env) (now : Nat) (m : CountMsg) :
    WpmState × List Out :=
  if checkTarget env m.target_system m.target_component then
    if s.state == WpmProtState.idle then
      let s1 := { s with time_last_recv := now }
      if s1.transfer_in_progress then
        (s1, [send_mission_ack s1 s1.transfer_partner_sysid s1.transfer_partner_compid
                MAV_MISSION_ERROR])
      else
        let s2 := { s1 with transfer_in_progress := true, mission_type := m.mission_type }
        if m.count > current_max_item_count s2 env then
          ({ s2 with transfer_in_progress := false },
           [send_mission_ack s2 s2.transfer_partner_sysid s2.transfer_partner_compid
              MAV_MISSION_NO_SPACE])
        else if m.count == 0 then
          let r :
              WpmState × List Out :=
            if s2.mission_type == MAV_MISSION_TYPE_MISSION then
              let u := update_active_mission s2 env (if s2.dataman_id == 0 then 1 else 0) 0 0
              (u.1, u.2.1)
            else if s2.mission_type == MAV_MISSION_TYPE_FENCE then
              let u := update_geofence_count s2 env 0
              (u.1, u.2.1)
            else if s2.mission_type == MAV_MISSION_TYPE_RALLY then
              let u := update_safepoint_count s2 env 0
              (u.1, u.2.1)
            else
              (s2, [])
          ({ r.1 with transfer_in_progress := false },
           r.2 ++ [send_mission_ack r.1 r.1.transfer_partner_sysid
                     r.1.transfer_partner_compid MAV_MISSION_ACCEPTED])
        else
          let s3 := { s2 with state := WpmProtState.getlist, transfer_seq := 0,
                              transfer_partner_sysid := m.srcSys,
                              transfer_partner_compid := m.srcComp,
                              transfer_count := m.count,
                              transfer_dataman_id := if s2.dataman_id == 0 then 1 else 0,
                              transfer_current_seq := -1 }
          let r :
              WpmState × List Out :=
            if s3.mission_type == MAV_MISSION_TYPE_FENCE then
              if env.dmLockOk then ({ s3 with geofence_locked := true }, [Out.dmLock])
              else (s3, [Out.dmLock])
            else
              (s3, [])
          let q := send_mission_request r.1 env now r.1.transfer_partner_sysid
                     r.1.transfer_partner_compid (toU16 r.1.transfer_seq)
          (q.1, r.2 ++ q.2)
    else if s.state == WpmProtState.getlist then
      let s1 := { s with time_last_recv := now }
      if s1.transfer_seq == 0 then
        let q := send_mission_request s1 env now s1.transfer_partner_sysid
                   s1.transfer_partner_compid (toU16 s1.transfer_seq)
        q
      else
        (s1, [Out.statustext "WPM: REJ. CMD: Busy"])
    else
      (s, [Out.statustext "WPM: IGN MISSION_COUNT: Busy"])
  else
    (s, [])

/-- Per-type write-and-check block of `handle_mission_item_both` (the
`switch (_mission_type)` statement): returns the possibly updated
state, the attempted dataman writes, `write_failed` and
`check_failed`. -/
def upload_item_write (s2 : WpmState) (env : Env) (m : ItemMsg) (mi : MissionItemRec) :
    WpmState × List Out × Bool × Bool :=
  if s2.mission_type == MAV_MISSION_TYPE_MISSION then
    if mi.nav_cmd == MAV_CMD_NAV_FENCE_POLYGON_VERTEX_INCLUSION ||
       mi.nav_cmd == MAV_CMD_NAV_FENCE_POLYGON_VERTEX_EXCLUSION ||
       mi.nav_cmd == MAV_CMD_NAV_FENCE_CIRCLE_INCLUSION ||
       mi.nav_cmd == MAV_CMD_NAV_FENCE_CIRCLE_EXCLUSION ||
       mi.nav_cmd == MAV_CMD_NAV_RALLY_POINT then
      (s2, [], false, true)
    else
      let key := DmKey.waypoints s2.transfer_dataman_id
      let ok := env.dmWriteOk key m.seq
      let s3 :=
        if ok && m.current != 0 then { s2 with transfer_current_seq := (m.seq : Int) }
        else s2
      (s3, [Out.dmWrite key m.seq (DmData.item mi)], !ok, false)
  else if s2.mission_type == MAV_MISSION_TYPE_FENCE then
    let fp : FencePointRec :=
      { nav_cmd := mi.nav_cmd, lat := mi.lat, lon := mi.lon, alt := mi.altitude }
    if mi.nav_cmd == MAV_CMD_NAV_FENCE_POLYGON_VERTEX_INCLUSION ||
       mi.nav_cmd == MAV_CMD_NAV_FENCE_POLYGON_VERTEX_EXCLUSION then
      let fp := { fp with vertex_count := mi.vertex_count }
      if mi.vertex_count < 3 then
        -- feasibility check failure resets the persisted fence count
        let u := update_geofence_count s2 env 0
        (u.1, u.2.1, false, true)
      else
        let fp := { fp with frame := mi.frame }
        let ok := env.dmWriteOk DmKey.fencePoints (m.seq + 1)
        (s2, [Out.dmWrite DmKey.fencePoints (m.seq + 1) (DmData.fencePoint fp)],
         !ok, false)
    else
      let fp := { fp with circle_radius := mi.circle_radius, frame := mi.frame }
      let ok := env.dmWriteOk DmKey.fencePoints (m.seq + 1)
      (s2, [Out.dmWrite DmKey.fencePoints (m.seq + 1) (DmData.fencePoint fp)],
       !ok, false)
  else if s2.mission_type == MAV_MISSION_TYPE_RALLY then
    let sp : SafePointRec :=
      { lat := mi.lat, lon := mi.lon, alt := mi.altitude, frame := mi.frame }
    let ok := env.dmWriteOk DmKey.safePoints (m.seq + 1)
    (s2, [Out.dmWrite DmKey.safePoints (m.seq + 1) (DmData.safePoint sp)], !ok, false)
  else
    (s2, [Out.statustext "Received unknown mission type, abort."], false, false)

/-- `handle_mission_item_both`: common body of `handle_mission_item`
and `handle_mission_item_int`; the upload (GETLIST) receive path. -/
def handle_mission_item_both (s : WpmState) (env : Env) (now : Nat) (m : ItemMsg) :
    WpmState × List Out :=
  if checkTarget env m.target_system m.target_component then
    if m.mission_type != s.mission_type then
      (s, [])
    else if s.state == WpmProtState.getlist && (m.seq : Int) != s.transfer_seq then
      ({ s with time_last_recv := now }, [])
    else if s.state == WpmProtState.idle then
      (s, [Out.statustext "IGN MISSION_ITEM: No transfer"])
    else if s.state != WpmProtState.getlist then
      (s, [Out.statustext "IGN MISSION_ITEM: Busy"])
    else
      let s1 := { s with time_last_recv := now }
      let p := parse_mavlink_mission_item s1.int_mode m
      let s2 := { s1 with int_mode := p.1 }
      let mi := p.2.1
      let ret := p.2.2
      if ret != MAV_MISSION_ACCEPTED then
        let r := switch_to_idle_state s2
        ({ r.1 with transfer_in_progress := false },
         [Out.statustext "IGN MISSION_ITEM: Busy",
          send_mission_ack s2 s2.transfer_partner_sysid s2.transfer_partner_compid ret]
           ++ r.2)
      else
        let wr := upload_item_write s2 env m mi
        let s3 := wr.1
        let wouts := wr.2.1
        let write_failed := wr.2.2.1
        let check_failed := wr.2.2.2
        if write_failed || check_failed then
          let r := switch_to_idle_state s3
          ({ r.1 with transfer_in_progress := false },
           wouts ++
             [send_mission_ack s3 s3.transfer_partner_sysid s3.transfer_partner_compid
                MAV_MISSION_ERROR] ++
             (if write_failed then [Out.statustext "Unable to write on micro SD"] else []) ++
             r.2)
        else
          let s4 :=
            if m.current != 0 then { s3 with transfer_current_seq := (m.seq : Int) } else s3
          let s5 := { s4 with transfer_seq := (m.seq : Int) + 1 }
          if s5.transfer_seq == (s5.transfer_count : Int) then
            let commit : WpmState × List Out × Bool :=
              if s5.mission_type == MAV_MISSION_TYPE_MISSION then
                update_active_mission s5 env s5.transfer_dataman_id s5.transfer_count
                  s5.transfer_current_seq
              else if s5.mission_type == MAV_MISSION_TYPE_FENCE then
                update_geofence_count s5 env s5.transfer_count
              else if s5.mission_type == MAV_MISSION_TYPE_RALLY then
                update_safepoint_count s5 env s5.transfer_count
              else
                (s5, [], true)
            let r := switch_to_idle_state commit.1
            ({ r.1 with transfer_in_progress := false },
             wouts ++ commit.2.1 ++ r.2 ++
               [send_mission_ack r.1 r.1.transfer_partner_sysid r.1.transfer_partner_compid
                  (if commit.2.2 then MAV_MISSION_ACCEPTED else MAV_MISSION_ERROR)])
          else
            let q := send_mission_request s5 env now s5.transfer_partner_sysid
                       s5.transfer_partner_compid (toU16 s5.transfer_seq)
            (q.1, wouts ++ q.2)
  else
    (s, [])

/-- `handle_mission_item`: a float item switches out of int mode. -/
def handle_mission_item (s : WpmState) (env : Env) (now : Nat) (m : ItemMsg) :
    WpmState × List Out :=
  handle_mission_item_both { s with int_mode := false } env now m

/-- `handle_mission_item_int`. -/
def handle_mission_item_int (s : WpmState) (env : Env) (now : Nat) (m : ItemMsg) :
    WpmState × List Out :=
  handle_mission_item_both { s with int_mode := true } env now m

/-- `handle_mission_clear_all`. -/
def handle_mission_clear_all (s : WpmState) (env : Env) (now : Nat) (m : ClearAllMsg) :
    WpmState × List Out :=
  if checkTarget env m.target_system m.target_component then
    if s.state == WpmProtState.idle then
      let s1 := { s with time_last_recv := now, mission_type := m.mission_type }
      let r : WpmState × List Out × Bool :=
        if m.mission_type == MAV_MISSION_TYPE_MISSION then
          update_active_mission s1 env (if s1.dataman_id == 0 then 1 else 0) 0 0
        else if m.mission_type == MAV_MISSION_TYPE_FENCE then
          update_geofence_count s1 env 0
        else if m.mission_type == MAV_MISSION_TYPE_RALLY then
          update_safepoint_count s1 env 0
        else if m.mission_type == MAV_MISSION_TYPE_ALL then
          let a := update_active_mission s1 env (if s1.dataman_id == 0 then 1 else 0) 0 0
          let b := update_geofence_count a.1 env 0
          let c := update_safepoint_count b.1 env 0
          (c.1, a.2.1 ++ b.2.1 ++ c.2.1, a.2.2 && b.2.2 && c.2.2)
        else
          (s1, [], true)
      (r.1,
       r.2.1 ++ [send_mission_ack r.1 r.1.transfer_partner_sysid r.1.transfer_partner_compid
                   (if r.2.2 then MAV_MISSION_ACCEPTED else MAV_MISSION_ERROR)])
    else
      (s, [Out.statustext "WPM: IGN CLEAR CMD: Busy"])
  else
    (s, [])

/-- The nine inbound message kinds dispatched by `handle_message`. -/
inductive InMsg where
  | ack (m : AckMsg)
  | setCurrent (m : SetCurrentMsg)
  | requestList (m : RequestListMsg)
  | request (m : RequestMsg)
  | requestInt (m : RequestMsg)
  | count (m : CountMsg)
  | item (m : ItemMsg)
  | itemInt (m : ItemMsg)
  | clearAll (m : ClearAllMsg)
  deriving DecidableEq

/-- `handle_message` dispatcher. -/
def handle_message (s : WpmState) (env : Env) (now : Nat) : InMsg → WpmState × List Out
  | InMsg.ack m => handle_mission_ack s env now m
  | InMsg.setCurrent m => handle_mission_set_current s env now m
  | InMsg.requestList m => handle_mission_request_list s env now m
  | InMsg.request m => handle_mission_request s env now m
  | InMsg.requestInt m => handle_mission_request_int s env now m
  | InMsg.count m => handle_mission_count s env now m
  | InMsg.item m => handle_mission_item s env now m
  | InMsg.itemInt m => handle_mission_item_int s env now m
  | InMsg.clearAll m => handle_mission_clear_all s env now m

/-- Timeout/retry tail of `send()` (the part after the progress
publishing). -/
def send_timeouts (s : WpmState) (env : Env) (now : Nat) : WpmState × List Out :=
  if s.state == WpmProtState.getlist && s.time_last_sent > 0 &&
     now - s.time_last_sent > s.retry_timeout then
    send_mission_request s env now s.transfer_partner_sysid s.transfer_partner_compid
      (toU16 s.transfer_seq)
  else if s.state == WpmProtState.sendlist && s.time_last_sent > 0 &&
          now - s.time_last_sent > s.retry_timeout then
    if s.transfer_seq == 0 then
      send_mission_count s now s.transfer_partner_sysid s.transfer_partner_compid
        s.transfer_count s.mission_type
    else
      send_mission_item s env now s.transfer_partner_sysid s.transfer_partner_compid
        (toU16 (s.transfer_seq - 1))
  else if s.state != WpmProtState.idle && s.time_last_recv > 0 &&
          now - s.time_last_recv > s.action_timeout then
    let r := switch_to_idle_state s
    ({ r.1 with transfer_in_progress := false },
     Out.statustext "Operation timeout" :: r.2)
  else if s.state == WpmProtState.idle then
    ({ s with time_last_sent := 0, time_last_recv := 0 }, [])
  else
    (s, [])

/-- Progress-publishing phase of `send(now)`: consume a pending
`mission_result` update, or run the 10 Hz rate limiter. -/
def send_progress (s : WpmState) (env : Env) (now : Nat) : WpmState × List Out :=
  match env.missionResult with
  | some r =>
      let s1 := { s with current_seq := r.seq_current }
      let s2 :=
        if r.reached then
          { s1 with time_last_reached := now, last_reached := r.seq_reached }
        else
          { s1 with last_reached := -1 }
      let o2 := if r.reached then send_mission_item_reached (toU16 r.seq_reached) else []
      let o3 := send_mission_current s2 (toU16 s2.current_seq)
      if r.item_do_jump_changed then
        let q := send_mission_item s2 env now s2.transfer_partner_sysid
                   s2.transfer_partner_compid (toU16 r.item_changed_index)
        (q.1, o2 ++ o3 ++ q.2)
      else
        (s2, o2 ++ o3)
  | none =>
      if now - s.slow_rate_last > s.slow_rate_interval then
        let s1 := { s with slow_rate_last := now }
        let o := send_mission_current s1 (toU16 s1.current_seq)
        let o2 :=
          if s1.last_reached ≥ 0 && now - s1.time_last_reached < 300 * 1000 then
            send_mission_item_reached (toU16 s1.last_reached)
          else
            []
        (s1, o ++ o2)
      else
        (s, [])

/-- `send(now)`: progress publishing followed by retry/action-timeout
handling. -/
def send_tick (s : WpmState) (env : Env) (now : Nat) : WpmState × List Out :=
  let pub := send_progress s env now
  let t := send_timeouts pub.1 env now
  (t.1, pub.2 ++ t.2)

/-- The read phase of `send_mission_item` succeeds: the dataman record
for `seq` under the current mission type exists and has the expected
shape. -/
def mission_item_read_ok (s : WpmState) (env : Env) (seq : Nat) : Bool :=
  if s.mission_type == MAV_MISSION_TYPE_MISSION then
    match env.dmRead (DmKey.waypoints s.dataman_id) seq with
    | some (DmData.item _) => true
    | _ => false
  else if s.mission_type == MAV_MISSION_TYPE_FENCE then
    match env.dmRead DmKey.fencePoints (seq + 1) with
    | some (DmData.fencePoint _) => true
    | _ => false
  else if s.mission_type == MAV_MISSION_TYPE_RALLY then
    match env.dmRead DmKey.safePoints (seq + 1) with
    | some (DmData.safePoint _) => true
    | _ => false
  else
    false

/-! ## Preservation lemmas for the outbound helpers -/

@[simp]
lemma switch_to_idle_state_lock (s : WpmState) :
    (switch_to_idle_state s).1.geofence_locked = false := by
  unfold switch_to_idle_state
  split
  · rfl
  · simp_all

@[simp]
lemma switch_to_idle_state_state (s : WpmState) :
    (switch_to_idle_state s).1.state = WpmProtState.idle := by
  unfold switch_to_idle_state; repeat' (first | rfl | split)

@[simp]
lemma dmWrite_not_mem_switch_outs (k : DmKey) (i : Nat) (v : DmData) (s : WpmState) :
    Out.dmWrite k i v ∉ (switch_to_idle_state s).2 := by
  unfold switch_to_idle_state; split <;> simp

@[simp]
lemma missionAck_not_mem_switch_outs (a b c d : Nat) (s : WpmState) :
    Out.missionAck a b c d ∉ (switch_to_idle_state s).2 := by
  unfold switch_to_idle_state; split <;> simp

@[simp]
lemma orbPublish_not_mem_switch_outs (ms : MissionS) (s : WpmState) :
    Out.orbPublish ms ∉ (switch_to_idle_state s).2 := by
  unfold switch_to_idle_state; split <;> simp

@[simp]
lemma dmWrite_not_mem_send_request_outs (k : DmKey) (i : Nat) (v : DmData)
    (s : WpmState) (env : Env) (now a b c : Nat) :
    Out.dmWrite k i v ∉ (send_mission_request s env now a b c).2 := by
  unfold send_mission_request; split <;> simp

@[simp]
lemma missionAck_not_mem_send_request_outs (x y z w : Nat)
    (s : WpmState) (env : Env) (now a b c : Nat) :
    Out.missionAck x y z w ∉ (send_mission_request s env now a b c).2 := by
  unfold send_mission_request; split <;> simp

@[simp]
lemma orbPublish_not_mem_send_request_outs (ms : MissionS)
    (s : WpmState) (env : Env) (now a b c : Nat) :
    Out.orbPublish ms ∉ (send_mission_request s env now a b c).2 := by
  unfold send_mission_request; split <;> simp

@[simp]
lemma send_mission_request_state (s : WpmState) (env : Env) (now a b c : Nat) :
    (send_mission_request s env now a b c).1.state = s.state := by
  unfold send_mission_request; repeat' (first | rfl | split)

@[simp]
lemma send_mission_request_lock (s : WpmState) (env : Env) (now a b c : Nat) :
    (send_mission_request s env now a b c).1.geofence_locked = s.geofence_locked := by
  unfold send_mission_request; repeat' (first | rfl | split)

@[simp]
lemma send_mission_item_state (s : WpmState) (env : Env) (now a b c : Nat) :
    (send_mission_item s env now a b c).1.state = s.state := by
  unfold send_mission_item
  repeat' (first | rfl | split)

@[simp]
lemma send_mission_item_lock (s : WpmState) (env : Env) (now a b c : Nat) :
    (send_mission_item s env now a b c).1.geofence_locked = s.geofence_locked := by
  unfold send_mission_item
  repeat' (first | rfl | split)

@[simp]
lemma send_mission_count_state (s : WpmState) (now a b c d : Nat) :
    (send_mission_count s now a b c d).1.state = s.state := rfl

@[simp]
lemma send_mission_count_lock (s : WpmState) (now a b c d : Nat) :
    (send_mission_count s now a b c d).1.geofence_locked = s.geofence_locked := rfl

@[simp]
lemma update_active_mission_state (s : WpmState) (env : Env) (d c : Nat) (q : Int) :
    (update_active_mission s env d c q).1.state = s.state := by
  unfold update_active_mission; repeat' (first | rfl | split)

@[simp]
lemma update_active_mission_lock (s : WpmState) (env : Env) (d c : Nat) (q : Int) :
    (update_active_mission s env d c q).1.geofence_locked = s.geofence_locked := by
  unfold update_active_mission; repeat' (first | rfl | split)

@[simp]
lemma update_geofence_count_state (s : WpmState) (env : Env) (c : Nat) :
    (update_geofence_count s env c).1.state = s.state := by
  unfold update_geofence_count; repeat' (first | rfl | split)

@[simp]
lemma update_geofence_count_lock (s : WpmState) (env : Env) (c : Nat) :
    (update_geofence_count s env c).1.geofence_locked = s.geofence_locked := by
  unfold update_geofence_count; repeat' (first | rfl | split)

@[simp]
lemma update_safepoint_count_state (s : WpmState) (env : Env) (c : Nat) :
    (update_safepoint_count s env c).1.state = s.state := by
  unfold update_safepoint_count; repeat' (first | rfl | split)

@[simp]
lemma update_safepoint_count_lock (s : WpmState) (env : Env) (c : Nat) :
    (update_safepoint_count s env c).1.geofence_locked = s.geofence_locked := by
  unfold update_safepoint_count; repeat' (first | rfl | split)

@[simp]
lemma switch_to_idle_state_transfer_seq (s : WpmState) :
    (switch_to_idle_state s).1.transfer_seq = s.transfer_seq := by
  unfold switch_to_idle_state; repeat' (first | rfl | split)

@[simp]
lemma switch_to_idle_state_tip (s : WpmState) :
    (switch_to_idle_state s).1.transfer_in_progress = s.transfer_in_progress := by
  unfold switch_to_idle_state; repeat' (first | rfl | split)

@[simp]
lemma send_mission_request_transfer_seq (s : WpmState) (env : Env) (now a b c : Nat) :
    (send_mission_request s env now a b c).1.transfer_seq = s.transfer_seq := by
  unfold send_mission_request; repeat' (first | rfl | split)

@[simp]
lemma send_mission_item_transfer_seq (s : WpmState) (env : Env) (now a b c : Nat) :
    (send_mission_item s env now a b c).1.transfer_seq = s.transfer_seq := by
  unfold send_mission_item; repeat' (first | rfl | split)

@[simp]
lemma send_mission_request_transfer_dataman_id (s : WpmState) (env : Env) (now a b c : Nat) :
    (send_mission_request s env now a b c).1.transfer_dataman_id =
      s.transfer_dataman_id := by
  unfold send_mission_request; repeat' (first | rfl | split)

@[simp]
lemma send_mission_request_dataman_id (s : WpmState) (env : Env) (now a b c : Nat) :
    (send_mission_request s env now a b c).1.dataman_id = s.dataman_id := by
  unfold send_mission_request; repeat' (first | rfl | split)

@[simp]
lemma send_mission_request_state2 (s : WpmState) (env : Env) (now a b c : Nat) :
    (send_mission_request s env now a b c).1.transfer_in_progress =
      s.transfer_in_progress := by
  unfold send_mission_request; repeat' (first | rfl | split)

@[simp]
lemma switch_to_idle_state_dataman_id (s : WpmState) :
    (switch_to_idle_state s).1.dataman_id = s.dataman_id := by
  unfold switch_to_idle_state; repeat' (first | rfl | split)

@[simp]
lemma switch_to_idle_state_current_seq (s : WpmState) :
    (switch_to_idle_state s).1.current_seq = s.current_seq := by
  unfold switch_to_idle_state; repeat' (first | rfl | split)

@[simp]
lemma update_geofence_count_current_seq (s : WpmState) (env : Env) (c : Nat) :
    (update_geofence_count s env c).1.current_seq = s.current_seq := by
  unfold update_geofence_count; repeat' (first | rfl | split)

@[simp]
lemma upload_item_write_current_seq (s2 : WpmState) (env : Env) (m : ItemMsg)
    (mi : MissionItemRec) :
    (upload_item_write s2 env m mi).1.current_seq = s2.current_seq := by
  unfold upload_item_write
  dsimp only []
  split_ifs <;> simp

@[simp]
lemma update_active_mission_transfer_seq (s : WpmState) (env : Env) (d c : Nat) (q : Int) :
    (update_active_mission s env d c q).1.transfer_seq = s.transfer_seq := by
  unfold update_active_mission; repeat' (first | rfl | split)

@[simp]
lemma update_geofence_count_transfer_seq (s : WpmState) (env : Env) (c : Nat) :
    (update_geofence_count s env c).1.transfer_seq = s.transfer_seq := by
  unfold update_geofence_count; repeat' (first | rfl | split)

@[simp]
lemma update_safepoint_count_transfer_seq (s : WpmState) (env : Env) (c : Nat) :
    (update_safepoint_count s env c).1.transfer_seq = s.transfer_seq := by
  unfold update_safepoint_count; repeat' (first | rfl | split)

@[simp]
lemma switch_to_idle_state_mission_type (s : WpmState) :
    (switch_to_idle_state s).1.mission_type = s.mission_type := by
  unfold switch_to_idle_state; repeat' (first | rfl | split)

@[simp]
lemma switch_to_idle_state_partner_sysid (s : WpmState) :
    (switch_to_idle_state s).1.transfer_partner_sysid = s.transfer_partner_sysid := by
  unfold switch_to_idle_state; repeat' (first | rfl | split)

@[simp]
lemma switch_to_idle_state_partner_compid (s : WpmState) :
    (switch_to_idle_state s).1.transfer_partner_compid = s.transfer_partner_compid := by
  unfold switch_to_idle_state; repeat' (first | rfl | split)

@[simp]
lemma update_active_mission_mission_type (s : WpmState) (env : Env) (d c : Nat) (q : Int) :
    (update_active_mission s env d c q).1.mission_type = s.mission_type := by
  unfold update_active_mission; repeat' (first | rfl | split)

@[simp]
lemma update_active_mission_partner_sysid (s : WpmState) (env : Env) (d c : Nat) (q : Int) :
    (update_active_mission s env d c q).1.transfer_partner_sysid =
      s.transfer_partner_sysid := by
  unfold update_active_mission; repeat' (first | rfl | split)

@[simp]
lemma update_active_mission_partner_compid (s : WpmState) (env : Env) (d c : Nat) (q : Int) :
    (update_active_mission s env d c q).1.transfer_partner_compid =
      s.transfer_partner_compid := by
  unfold update_active_mission; repeat' (first | rfl | split)

@[simp]
lemma update_geofence_count_mission_type (s : WpmState) (env : Env) (c : Nat) :
    (update_geofence_count s env c).1.mission_type = s.mission_type := by
  unfold update_geofence_count; repeat' (first | rfl | split)

@[simp]
lemma update_geofence_count_partner_sysid (s : WpmState) (env : Env) (c : Nat) :
    (update_geofence_count s env c).1.transfer_partner_sysid =
      s.transfer_partner_sysid := by
  unfold update_geofence_count; repeat' (first | rfl | split)

@[simp]
lemma update_geofence_count_partner_compid (s : WpmState) (env : Env) (c : Nat) :
    (update_geofence_count s env c).1.transfer_partner_compid =
      s.transfer_partner_compid := by
  unfold update_geofence_count; repeat' (first | rfl | split)

@[simp]
lemma update_safepoint_count_mission_type (s : WpmState) (env : Env) (c : Nat) :
    (update_safepoint_count s env c).1.mission_type = s.mission_type := by
  unfold update_safepoint_count; repeat' (first | rfl | split)

@[simp]
lemma update_safepoint_count_partner_sysid (s : WpmState) (env : Env) (c : Nat) :
    (update_safepoint_count s env c).1.transfer_partner_sysid =
      s.transfer_partner_sysid := by
  unfold update_safepoint_count; repeat' (first | rfl | split)

@[simp]
lemma update_safepoint_count_partner_compid (s : WpmState) (env : Env) (c : Nat) :
    (update_safepoint_count s env c).1.transfer_partner_compid =
      s.transfer_partner_compid := by
  unfold update_safepoint_count; repeat' (first | rfl | split)

@[simp]
lemma update_geofence_count_dataman_id (s : WpmState) (env : Env) (c : Nat) :
    (update_geofence_count s env c).1.dataman_id = s.dataman_id := by
  unfold update_geofence_count; repeat' (first | rfl | split)

@[simp]
lemma update_geofence_count_tip (s : WpmState) (env : Env) (c : Nat) :
    (update_geofence_count s env c).1.transfer_in_progress = s.transfer_in_progress := by
  unfold update_geofence_count; repeat' (first | rfl | split)

@[simp]
lemma update_geofence_count_transfer_count (s : WpmState) (env : Env) (c : Nat) :
    (update_geofence_count s env c).1.transfer_count = s.transfer_count := by
  unfold update_geofence_count; repeat' (first | rfl | split)

@[simp]
lemma update_geofence_count_transfer_dataman_id (s : WpmState) (env : Env) (c : Nat) :
    (update_geofence_count s env c).1.transfer_dataman_id = s.transfer_dataman_id := by
  unfold update_geofence_count; repeat' (first | rfl | split)

@[simp]
lemma upload_item_write_state (s2 : WpmState) (env : Env) (m : ItemMsg)
    (mi : MissionItemRec) :
    (upload_item_write s2 env m mi).1.state = s2.state := by
  unfold upload_item_write
  dsimp only []
  split_ifs <;> simp

@[simp]
lemma upload_item_write_lock (s2 : WpmState) (env : Env) (m : ItemMsg)
    (mi : MissionItemRec) :
    (upload_item_write s2 env m mi).1.geofence_locked = s2.geofence_locked := by
  unfold upload_item_write
  dsimp only []
  split_ifs <;> simp

@[simp]
lemma upload_item_write_transfer_seq (s2 : WpmState) (env : Env) (m : ItemMsg)
    (mi : MissionItemRec) :
    (upload_item_write s2 env m mi).1.transfer_seq = s2.transfer_seq := by
  unfold upload_item_write
  dsimp only []
  split_ifs <;> simp

@[simp]
lemma upload_item_write_mission_type (s2 : WpmState) (env : Env) (m : ItemMsg)
    (mi : MissionItemRec) :
    (upload_item_write s2 env m mi).1.mission_type = s2.mission_type := by
  unfold upload_item_write
  dsimp only []
  split_ifs <;> simp

@[simp]
lemma upload_item_write_partner_sysid (s2 : WpmState) (env : Env) (m : ItemMsg)
    (mi : MissionItemRec) :
    (upload_item_write s2 env m mi).1.transfer_partner_sysid =
      s2.transfer_partner_sysid := by
  unfold upload_item_write
  dsimp only []
  split_ifs <;> simp

@[simp]
lemma upload_item_write_partner_compid (s2 : WpmState) (env : Env) (m : ItemMsg)
    (mi : MissionItemRec) :
    (upload_item_write s2 env m mi).1.transfer_partner_compid =
      s2.transfer_partner_compid := by
  unfold upload_item_write
  dsimp only []
  split_ifs <;> simp

@[simp]
lemma upload_item_write_tip (s2 : WpmState) (env : Env) (m : ItemMsg)
    (mi : MissionItemRec) :
    (upload_item_write s2 env m mi).1.transfer_in_progress =
      s2.transfer_in_progress := by
  unfold upload_item_write
  dsimp only []
  split_ifs <;> simp

@[simp]
lemma upload_item_write_transfer_count (s2 : WpmState) (env : Env) (m : ItemMsg)
    (mi : MissionItemRec) :
    (upload_item_write s2 env m mi).1.transfer_count = s2.transfer_count := by
  unfold upload_item_write
  dsimp only []
  split_ifs <;> simp

@[simp]
lemma upload_item_write_transfer_dataman_id (s2 : WpmState) (env : Env) (m : ItemMsg)
    (mi : MissionItemRec) :
    (upload_item_write s2 env m mi).1.transfer_dataman_id =
      s2.transfer_dataman_id := by
  unfold upload_item_write
  dsimp only []
  split_ifs <;> simp

@[simp]
lemma upload_item_write_dataman_id (s2 : WpmState) (env : Env) (m : ItemMsg)
    (mi : MissionItemRec) :
    (upload_item_write s2 env m mi).1.dataman_id = s2.dataman_id := by
  unfold upload_item_write
  dsimp only []
  split_ifs <;> simp

@[simp]
lemma load_geofence_stats_state (s : WpmState) (env : Env) :
    (load_geofence_stats s env).state = s.state := by
  unfold load_geofence_stats; repeat' (first | rfl | split)

@[simp]
lemma load_geofence_stats_lock (s : WpmState) (env : Env) :
    (load_geofence_stats s env).geofence_locked = s.geofence_locked := by
  unfold load_geofence_stats; repeat' (first | rfl | split)

@[simp]
lemma load_safepoint_stats_state (s : WpmState) (env : Env) :
    (load_safepoint_stats s env).state = s.state := by
  unfold load_safepoint_stats; repeat' (first | rfl | split)

@[simp]
lemma load_safepoint_stats_lock (s : WpmState) (env : Env) :
    (load_safepoint_stats s env).geofence_locked = s.geofence_locked := by
  unfold load_safepoint_stats; repeat' (first | rfl | split)

/-! ## Concrete states for witnesses and counterexamples -/

/-- A concrete quiescent endpoint state used as the base of witness
evaluations. -/
def exState : WpmState :=
  { dataman_id := 0, countMission := 3, countFence := 0, countRally := 0,
    current_seq := 0, last_reached := -1, transfer_in_progress := false,
    geofence_update_counter := 0, filesystem_errcount := 0,
    state := WpmProtState.idle, mission_type := 0, time_last_recv := 0,
    time_last_sent := 0, time_last_reached := 0, action_timeout := 5000000,
    retry_timeout := 500000, int_mode := false, my_dataman_id := 0,
    transfer_dataman_id := 0, transfer_count := 0, transfer_seq := 0,
    transfer_current_seq := -1, transfer_partner_sysid := 5,
    transfer_partner_compid := 5, geofence_locked := false,
    slow_rate_last := 0, slow_rate_interval := 100000 }

/-- A concrete environment where every dataman operation succeeds and
reads return a plain waypoint item. -/
def exEnv : Env :=
  { sysid := 1, compid := 1, maxCount := fun _ => 500,
    dmWriteOk := fun _ _ => true,
    dmRead := fun k _ =>
      match k with
      | DmKey.waypoints _ => some (DmData.item { nav_cmd := NAV_CMD_WAYPOINT })
      | DmKey.fencePoints => some (DmData.fencePoint {})
      | DmKey.safePoints => some (DmData.safePoint { frame := 0, lat := 0, lon := 0, alt := 0 })
      | DmKey.missionState => some (DmData.mission ⟨0, 3, 0⟩),
    dmLockOk := true, missionResult := none }

/-- A concrete environment where every dataman write fails. -/
def exEnvFail : Env :=
  { exEnv with dmWriteOk := fun _ _ => false }

/-! ## Claim theorems -/

/-- C7: `send_mission_current(seq)` emits `MISSION_CURRENT(seq)` iff
`seq < count[MISSION]`; it emits nothing when `seq = 0` and the count
is 0; in every other case it emits no `MISSION_CURRENT` but a critical
status text. -/
theorem C7_mission_current_cases :
    (∀ (s : WpmState) (seq : Nat), seq < s.countMission →
       send_mission_current s seq = [Out.missionCurrent seq]) ∧
    (∀ (s : WpmState), s.countMission = 0 → send_mission_current s 0 = []) ∧
    (∀ (s : WpmState) (seq : Nat), ¬ seq < s.countMission →
       ¬ (seq = 0 ∧ s.countMission = 0) →
       (∀ q, Out.missionCurrent q ∉ send_mission_current s seq) ∧
       Out.statustext "ERROR: wp index out of bounds" ∈ send_mission_current s seq) := by
  refine ⟨?_, ?_, ?_⟩
  · intro s seq h
    simp [send_mission_current, h]
  · intro s h
    simp [send_mission_current, h]
  · intro s seq h1 h2
    constructor
    · intro q
      simp only [send_mission_current]
      rw [if_neg h1, if_neg (by simpa using h2)]
      simp
    · simp only [send_mission_current]
      rw [if_neg h1, if_neg (by simpa using h2)]
      simp

/-- C7 witness. -/
theorem C7_mission_current_cases_witness :
    send_mission_current
        { dataman_id := 0, countMission := 2, countFence := 0, countRally := 0,
          current_seq := 0, last_reached := -1, transfer_in_progress := false,
          geofence_update_counter := 0, filesystem_errcount := 0,
          state := WpmProtState.idle, mission_type := 0, time_last_recv := 0,
          time_last_sent := 0, time_last_reached := 0, action_timeout := 5000000,
          retry_timeout := 500000, int_mode := false, my_dataman_id := 0,
          transfer_dataman_id := 0, transfer_count := 0, transfer_seq := 0,
          transfer_current_seq := -1, transfer_partner_sysid := 0,
          transfer_partner_compid := 0, geofence_locked := false,
          slow_rate_last := 0, slow_rate_interval := 100000 } 1 =
      [Out.missionCurrent 1] :=
  C7_mission_current_cases.1 _ 1 (by decide)

/-- C9: `update_geofence_count` pre-increments the process-wide
geofence update counter (mod 2^16) and stamps the incremented value
into the attempted stats write; when the write fails the counter has
still advanced while the in-memory fence count is unchanged. -/
theorem C9_geofence_counter_bump_not_atomic :
    ∀ (s : WpmState) (env : Env) (count : Nat),
      (update_geofence_count s env count).1.geofence_update_counter =
        (s.geofence_update_counter + 1) % 65536 ∧
      Out.dmWrite DmKey.fencePoints 0
          (DmData.stats ⟨count, (s.geofence_update_counter + 1) % 65536⟩) ∈
        (update_geofence_count s env count).2.1 ∧
      (env.dmWriteOk DmKey.fencePoints 0 = false →
        (update_geofence_count s env count).1.countFence = s.countFence) := by
  intro s env count
  unfold update_geofence_count
  split <;> simp_all

/-- C9 witness: a state at counter 7 with a failing write; the counter
advances to 8, the attempted write carries 8, the fence count stays. -/
theorem C9_geofence_counter_bump_not_atomic_witness :
    ((update_geofence_count
        { dataman_id := 0, countMission := 0, countFence := 4, countRally := 0,
          current_seq := 0, last_reached := -1, transfer_in_progress := false,
          geofence_update_counter := 7, filesystem_errcount := 0,
          state := WpmProtState.idle, mission_type := 1, time_last_recv := 0,
          time_last_sent := 0, time_last_reached := 0, action_timeout := 5000000,
          retry_timeout := 500000, int_mode := false, my_dataman_id := 0,
          transfer_dataman_id := 0, transfer_count := 0, transfer_seq := 0,
          transfer_current_seq := -1, transfer_partner_sysid := 0,
          transfer_partner_compid := 0, geofence_locked := false,
          slow_rate_last := 0, slow_rate_interval := 100000 }
        { sysid := 1, compid := 1, maxCount := fun _ => 100,
          dmWriteOk := fun _ _ => false, dmRead := fun _ _ => none,
          dmLockOk := true, missionResult := none }
        4).1.geofence_update_counter = 8 ∧
     (update_geofence_count
        { dataman_id := 0, countMission := 0, countFence := 4, countRally := 0,
          current_seq := 0, last_reached := -1, transfer_in_progress := false,
          geofence_update_counter := 7, filesystem_errcount := 0,
          state := WpmProtState.idle, mission_type := 1, time_last_recv := 0,
          time_last_sent := 0, time_last_reached := 0, action_timeout := 5000000,
          retry_timeout := 500000, int_mode := false, my_dataman_id := 0,
          transfer_dataman_id := 0, transfer_count := 0, transfer_seq := 0,
          transfer_current_seq := -1, transfer_partner_sysid := 0,
          transfer_partner_compid := 0, geofence_locked := false,
          slow_rate_last := 0, slow_rate_interval := 100000 }
        { sysid := 1, compid := 1, maxCount := fun _ => 100,
          dmWriteOk := fun _ _ => false, dmRead := fun _ _ => none,
          dmLockOk := true, missionResult := none }
        4).1.countFence = 4) := by
  have h := C9_geofence_counter_bump_not_atomic
    { dataman_id := 0, countMission := 0, countFence := 4, countRally := 0,
      current_seq := 0, last_reached := -1, transfer_in_progress := false,
      geofence_update_counter := 7, filesystem_errcount := 0,
      state := WpmProtState.idle, mission_type := 1, time_last_recv := 0,
      time_last_sent := 0, time_last_reached := 0, action_timeout := 5000000,
      retry_timeout := 500000, int_mode := false, my_dataman_id := 0,
      transfer_dataman_id := 0, transfer_count := 0, transfer_seq := 0,
      transfer_current_seq := -1, transfer_partner_sysid := 0,
      transfer_partner_compid := 0, geofence_locked := false,
      slow_rate_last := 0, slow_rate_interval := 100000 }
    { sysid := 1, compid := 1, maxCount := fun _ => 100,
      dmWriteOk := fun _ _ => false, dmRead := fun _ _ => none,
      dmLockOk := true, missionResult := none }
    4
  exact ⟨h.1, h.2.2 rfl⟩

/-- C8: the item parser never changes `_int_mode` (in particular its
frame-based switch to int mode only fires when the endpoint is already
in int mode), and in float mode an item with a GLOBAL_INT or
GLOBAL_RELATIVE_ALT_INT frame fails with `UNSUPPORTED_FRAME`. -/
theorem C8_parse_int_frames_gated_by_int_mode :
    ∀ (im : Bool) (w : ItemMsg),
      (parse_mavlink_mission_item im w).1 = im ∧
      (im = false →
        w.frame = MAV_FRAME_GLOBAL_INT ∨ w.frame = MAV_FRAME_GLOBAL_RELATIVE_ALT_INT →
        (parse_mavlink_mission_item im w).2.2 = MAV_MISSION_UNSUPPORTED_FRAME) := by
  intro im w
  constructor
  · unfold parse_mavlink_mission_item
    by_cases hc :
      (w.frame == MAV_FRAME_GLOBAL || w.frame == MAV_FRAME_GLOBAL_RELATIVE_ALT ||
       (im && (w.frame == MAV_FRAME_GLOBAL_INT ||
               w.frame == MAV_FRAME_GLOBAL_RELATIVE_ALT_INT))) = true
    · rw [if_pos hc]
      show (if (w.frame == MAV_FRAME_GLOBAL_INT ||
                w.frame == MAV_FRAME_GLOBAL_RELATIVE_ALT_INT) = true
            then true else im) = im
      by_cases hf :
        (w.frame == MAV_FRAME_GLOBAL_INT ||
          w.frame == MAV_FRAME_GLOBAL_RELATIVE_ALT_INT) = true
      · rw [if_pos hf]
        have him : im = true := by
          simp only [MAV_FRAME_GLOBAL, MAV_FRAME_GLOBAL_RELATIVE_ALT,
            MAV_FRAME_GLOBAL_INT, MAV_FRAME_GLOBAL_RELATIVE_ALT_INT,
            Bool.or_eq_true, beq_iff_eq, Bool.and_eq_true] at hc hf
          rcases hf with hf | hf <;> simp [hf] at hc <;> exact hc
        exact him.symm
      · rw [if_neg hf]
    · rw [if_neg hc]
      by_cases hm : (w.frame == MAV_FRAME_MISSION) = true
      · rw [if_pos hm]
      · rw [if_neg hm]
  · intro h1 h2
    subst h1
    rcases h2 with h2 | h2 <;>
      simp [parse_mavlink_mission_item, h2, MAV_FRAME_GLOBAL,
        MAV_FRAME_GLOBAL_RELATIVE_ALT, MAV_FRAME_GLOBAL_INT,
        MAV_FRAME_GLOBAL_RELATIVE_ALT_INT, MAV_FRAME_MISSION]

/-- C8 witness: in float mode a GLOBAL_INT-framed waypoint item is
rejected with `UNSUPPORTED_FRAME` and the mode stays float. -/
theorem C8_parse_int_frames_gated_by_int_mode_witness :
    (parse_mavlink_mission_item false
        { srcSys := 2, srcComp := 3, target_system := 1, target_component := 1,
          seq := 0, frame := 5, command := 16, current := 0, autocontinue := 1,
          param1 := 0, param2 := 0, param3 := 0, param4 := 0, x := 0, y := 0,
          xInt := 471234567, yInt := 85123456, z := 100,
          mission_type := 0 }).1 = false ∧
    (parse_mavlink_mission_item false
        { srcSys := 2, srcComp := 3, target_system := 1, target_component := 1,
          seq := 0, frame := 5, command := 16, current := 0, autocontinue := 1,
          param1 := 0, param2 := 0, param3 := 0, param4 := 0, x := 0, y := 0,
          xInt := 471234567, yInt := 85123456, z := 100,
          mission_type := 0 }).2.2 = MAV_MISSION_UNSUPPORTED_FRAME := by
  have h := C8_parse_int_frames_gated_by_int_mode false
    { srcSys := 2, srcComp := 3, target_system := 1, target_component := 1,
      seq := 0, frame := 5, command := 16, current := 0, autocontinue := 1,
      param1 := 0, param2 := 0, param3 := 0, param4 := 0, x := 0, y := 0,
      xInt := 471234567, yInt := 85123456, z := 100, mission_type := 0 }
  exact ⟨h.1, h.2 rfl (Or.inl rfl)⟩

/-- C5: a properly targeted `MISSION_COUNT` received in IDLE with no
transfer in progress whose count exceeds the capacity of its mission
type is answered with exactly one `ACK(NO_SPACE)`; the endpoint stays
in IDLE and `transfer_in_progress` is false afterwards. -/
theorem C5_count_over_capacity_no_space :
    ∀ (s : WpmState) (env : Env) (now : Nat) (m : CountMsg),
      checkTarget env m.target_system m.target_component = true →
      s.state = WpmProtState.idle →
      s.transfer_in_progress = false →
      m.count > (if m.mission_type < 3 then env.maxCount m.mission_type else 0) →
      (handle_mission_count s env now m).1.state = WpmProtState.idle ∧
      (handle_mission_count s env now m).1.transfer_in_progress = false ∧
      (handle_mission_count s env now m).2 =
        [Out.missionAck s.transfer_partner_sysid s.transfer_partner_compid
           MAV_MISSION_NO_SPACE m.mission_type] := by
  intro s env now m h1 h2 h3 h4
  simp [handle_mission_count, current_max_item_count, send_mission_ack, h1, h2, h3, h4]

/-- C5 witness: count 501 against capacity 500 is refused with
`NO_SPACE` from IDLE. -/
theorem C5_count_over_capacity_no_space_witness :
    (handle_mission_count exState exEnv 1000
        { srcSys := 2, srcComp := 3, target_system := 1, target_component := 1,
          count := 501, mission_type := 0 }).1.state = WpmProtState.idle ∧
    (handle_mission_count exState exEnv 1000
        { srcSys := 2, srcComp := 3, target_system := 1, target_component := 1,
          count := 501, mission_type := 0 }).1.transfer_in_progress = false ∧
    (handle_mission_count exState exEnv 1000
        { srcSys := 2, srcComp := 3, target_system := 1, target_component := 1,
          count := 501, mission_type := 0 }).2 =
      [Out.missionAck 5 5 MAV_MISSION_NO_SPACE 0] :=
  C5_count_over_capacity_no_space exState exEnv 1000
    { srcSys := 2, srcComp := 3, target_system := 1, target_component := 1,
      count := 501, mission_type := 0 }
    (by decide) (by decide) (by decide) (by decide)

/-- C10: `handle_mission_set_current` never emits a `MISSION_ACK`; when
the endpoint is busy or the requested seq is out of range it neither
writes to dataman nor changes the in-memory mission header
(`dataman_id`, mission count, `current_seq`); the persisted
`current_seq` is (re)written exactly in the IDLE, in-range case. -/
theorem C10_set_current_never_acks :
    ∀ (s : WpmState) (env : Env) (now : Nat) (m : SetCurrentMsg),
      (∀ a b c d, Out.missionAck a b c d ∉ (handle_mission_set_current s env now m).2) ∧
      (¬ (checkTarget env m.target_system m.target_component = true ∧
          s.state = WpmProtState.idle ∧ m.seq < s.countMission) →
        (∀ k i v, Out.dmWrite k i v ∉ (handle_mission_set_current s env now m).2) ∧
        (handle_mission_set_current s env now m).1.dataman_id = s.dataman_id ∧
        (handle_mission_set_current s env now m).1.countMission = s.countMission ∧
        (handle_mission_set_current s env now m).1.current_seq = s.current_seq) ∧
      (checkTarget env m.target_system m.target_component = true →
        s.state = WpmProtState.idle → m.seq < s.countMission →
        env.dmWriteOk DmKey.missionState 0 = true →
        (handle_mission_set_current s env now m).1.current_seq = (m.seq : Int) ∧
        Out.dmWrite DmKey.missionState 0
            (DmData.mission ⟨s.dataman_id, s.countMission, (m.seq : Int)⟩) ∈
          (handle_mission_set_current s env now m).2) := by
  intro s env now m
  refine ⟨?_, ?_, ?_⟩
  · intro a b c d
    unfold handle_mission_set_current update_active_mission
    dsimp only []
    split_ifs <;> simp_all
  · intro hneg
    unfold handle_mission_set_current update_active_mission
    dsimp only []
    split_ifs <;> simp_all
  · intro h1 h2 h3 h4
    simp [handle_mission_set_current, update_active_mission, h1, h2, h3, h4]

/-- C10 witness: busy case makes no write and keeps the header; IDLE
in-range case persists the new `current_seq`; neither acks. -/
theorem C10_set_current_never_acks_witness :
    (Out.missionAck 1 1 0 0 ∉
      (handle_mission_set_current { exState with state := WpmProtState.getlist } exEnv 1000
        { srcSys := 2, srcComp := 3, target_system := 1, target_component := 1,
          seq := 1 }).2) ∧
    (handle_mission_set_current { exState with state := WpmProtState.getlist } exEnv 1000
        { srcSys := 2, srcComp := 3, target_system := 1, target_component := 1,
          seq := 1 }).1.current_seq = 0 ∧
    (handle_mission_set_current exState exEnv 1000
        { srcSys := 2, srcComp := 3, target_system := 1, target_component := 1,
          seq := 1 }).1.current_seq = 1 ∧
    Out.dmWrite DmKey.missionState 0 (DmData.mission ⟨0, 3, 1⟩) ∈
      (handle_mission_set_current exState exEnv 1000
        { srcSys := 2, srcComp := 3, target_system := 1, target_component := 1,
          seq := 1 }).2 := by
  have hbusy := C10_set_current_never_acks { exState with state := WpmProtState.getlist }
    exEnv 1000
    { srcSys := 2, srcComp := 3, target_system := 1, target_component := 1, seq := 1 }
  have hok := C10_set_current_never_acks exState exEnv 1000
    { srcSys := 2, srcComp := 3, target_system := 1, target_component := 1, seq := 1 }
  refine ⟨hbusy.1 1 1 0 0, ?_, ?_, ?_⟩
  · exact (hbusy.2.1 (by simp [exState])).2.2.2
  · exact (hok.2.2 (by decide) (by decide) (by decide) (by decide)).1
  · exact (hok.2.2 (by decide) (by decide) (by decide) (by decide)).2

/-- C6 counterexample: in SENDLIST with int mode on, a non-ACCEPTED
`MISSION_ACK` from the partner with matching mission type does NOT flip
`_int_mode` (it stays true); the transfer is closed to IDLE instead.
The claim predicts a flip to float mode at exactly this input. -/
theorem C6_counterexample_sendlist_ack_no_flip :
    ({ exState with state := WpmProtState.sendlist, int_mode := true, transfer_seq := 3 } : WpmState).int_mode = true ∧
    (handle_mission_ack
        { exState with state := WpmProtState.sendlist, int_mode := true, transfer_seq := 3 }
        exEnv 1000
        { srcSys := 5, srcComp := 5, target_system := 1, target_component := 1,
          type := MAV_MISSION_ERROR, mission_type := 0 }).1.int_mode = true ∧
    (handle_mission_ack
        { exState with state := WpmProtState.sendlist, int_mode := true, transfer_seq := 3 }
        exEnv 1000
        { srcSys := 5, srcComp := 5, target_system := 1, target_component := 1,
          type := MAV_MISSION_ERROR, mission_type := 0 }).1.state = WpmProtState.idle := by
  refine ⟨rfl, ?_, ?_⟩ <;> rfl

/-- C6 (amended): the dual-mode flip on a non-ACCEPTED ACK happens in
state GETLIST (upload), not SENDLIST: there a properly targeted ACK
from the transfer partner whose status is not ACCEPTED flips
`_int_mode` (int to float, float to int), rewrites nothing else, and
emits nothing. -/
theorem C6_amended_int_mode_flip_in_getlist :
    ∀ (s : WpmState) (env : Env) (now : Nat) (m : AckMsg),
      checkTarget env m.target_system m.target_component = true →
      m.srcSys = s.transfer_partner_sysid →
      m.srcComp = s.transfer_partner_compid →
      s.state = WpmProtState.getlist →
      m.type ≠ MAV_MISSION_ACCEPTED →
      handle_mission_ack s env now m = ({ s with int_mode := !s.int_mode }, []) := by
  intro s env now m h1 h2 h3 h4 h5
  unfold handle_mission_ack
  cases hm : s.int_mode <;> simp_all [MAV_MISSION_ACCEPTED]

/-- C6 (amended) witness: a GETLIST upload in float mode receiving
`ACK(ERROR)` switches to int mode with no output. -/
theorem C6_amended_int_mode_flip_in_getlist_witness :
    handle_mission_ack
        { exState with state := WpmProtState.getlist, int_mode := false }
        exEnv 1000
        { srcSys := 5, srcComp := 5, target_system := 1, target_component := 1,
          type := MAV_MISSION_ERROR, mission_type := 0 } =
      ({ exState with state := WpmProtState.getlist, int_mode := true }, []) := by
  have h := C6_amended_int_mode_flip_in_getlist
    { exState with state := WpmProtState.getlist, int_mode := false }
    exEnv 1000
    { srcSys := 5, srcComp := 5, target_system := 1, target_component := 1,
      type := MAV_MISSION_ERROR, mission_type := 0 }
    (by decide) (by decide) (by decide) (by decide) (by decide)
  simpa using h

/-- `outs` contains a `MISSION_ACK` to `(a,b)` for mission type `mt`
whose status is not ACCEPTED. -/
def has_error_ack (a b mt : Nat) (outs : List Out) : Bool :=
  outs.any fun o =>
    match o with
    | Out.missionAck x y t m2 => x == a && y == b && m2 == mt && t != MAV_MISSION_ACCEPTED
    | _ => false

@[simp]
lemma has_error_ack_nil (a b mt : Nat) : has_error_ack a b mt [] = false := rfl

@[simp]
lemma has_error_ack_append (a b mt : Nat) (l1 l2 : List Out) :
    has_error_ack a b mt (l1 ++ l2) =
      (has_error_ack a b mt l1 || has_error_ack a b mt l2) := by
  simp [has_error_ack]

@[simp]
lemma has_error_ack_cons_statustext (a b mt : Nat) (str : String) (l : List Out) :
    has_error_ack a b mt (Out.statustext str :: l) = has_error_ack a b mt l := by
  simp [has_error_ack]

@[simp]
lemma has_error_ack_cons_dmWrite (a b mt : Nat) (k : DmKey) (i : Nat) (v : DmData)
    (l : List Out) :
    has_error_ack a b mt (Out.dmWrite k i v :: l) = has_error_ack a b mt l := by
  simp [has_error_ack]

@[simp]
lemma has_error_ack_cons_dmUnlock (a b mt : Nat) (l : List Out) :
    has_error_ack a b mt (Out.dmUnlock :: l) = has_error_ack a b mt l := by
  simp [has_error_ack]

@[simp]
lemma has_error_ack_cons_orbPublish (a b mt : Nat) (ms : MissionS) (l : List Out) :
    has_error_ack a b mt (Out.orbPublish ms :: l) = has_error_ack a b mt l := by
  simp [has_error_ack]

@[simp]
lemma has_error_ack_cons_ack (a b mt x y t m2 : Nat) (l : List Out) :
    has_error_ack a b mt (Out.missionAck x y t m2 :: l) =
      ((x == a && y == b && m2 == mt && t != MAV_MISSION_ACCEPTED) ||
        has_error_ack a b mt l) := by
  simp [has_error_ack]

@[simp]
lemma has_error_ack_switch_to_idle (a b mt : Nat) (s : WpmState) :
    has_error_ack a b mt (switch_to_idle_state s).2 = false := by
  unfold switch_to_idle_state; split <;> rfl

@[simp]
lemma has_error_ack_update_geofence (a b mt : Nat) (s : WpmState) (env : Env) (c : Nat) :
    has_error_ack a b mt (update_geofence_count s env c).2.1 = false := by
  unfold update_geofence_count
  dsimp only []
  split_ifs <;> rfl

/-- C3 counterexample: in GETLIST a `MISSION_ITEM` whose seq equals
`transfer_seq` but whose command is unsupported does not advance the
cursor; the endpoint aborts the transfer to IDLE with an error ACK.
The claim predicts the cursor advances to seq+1 for every matching
seq. -/
theorem C3_counterexample_invalid_item_matching_seq :
    ({ exState with state := WpmProtState.getlist, transfer_in_progress := true, transfer_count := 3, transfer_dataman_id := 1 } : WpmState).transfer_seq = 0 ∧
    (handle_mission_item
        { exState with state := WpmProtState.getlist, transfer_in_progress := true, transfer_count := 3, transfer_dataman_id := 1 }
        exEnv 1000
        { srcSys := 5, srcComp := 5, target_system := 1, target_component := 1,
          seq := 0, frame := 0, command := 1, current := 0, autocontinue := 1,
          param1 := 0, param2 := 0, param3 := 0, param4 := 0, x := 47, y := 8,
          xInt := 0, yInt := 0, z := 100, mission_type := 0 }).1.transfer_seq = 0 ∧
    (handle_mission_item
        { exState with state := WpmProtState.getlist, transfer_in_progress := true, transfer_count := 3, transfer_dataman_id := 1 }
        exEnv 1000
        { srcSys := 5, srcComp := 5, target_system := 1, target_component := 1,
          seq := 0, frame := 0, command := 1, current := 0, autocontinue := 1,
          param1 := 0, param2 := 0, param3 := 0, param4 := 0, x := 47, y := 8,
          xInt := 0, yInt := 0, z := 100, mission_type := 0 }).1.state =
      WpmProtState.idle := by
  refine ⟨rfl, ?_, ?_⟩ <;> rfl

/-- C3 (amended): in GETLIST, a properly targeted item of the current
mission type with `seq = transfer_seq` either advances the cursor to
`seq+1` (when it is accepted and stored) or aborts the transfer to
IDLE with a non-ACCEPTED ACK to the partner — it is never silently
dropped; an item whose seq differs from `transfer_seq` is silently
ignored: no output at all and only `_time_last_recv` (and the int/float
mode, chosen by the message variant before the seq check) changes. -/
theorem C3_item_seq_discipline :
    (∀ (s : WpmState) (env : Env) (now : Nat) (m : ItemMsg),
       checkTarget env m.target_system m.target_component = true →
       m.mission_type = s.mission_type →
       s.state = WpmProtState.getlist →
       (m.seq : Int) = s.transfer_seq →
       (handle_mission_item s env now m).1.transfer_seq = (m.seq : Int) + 1 ∨
       ((handle_mission_item s env now m).1.state = WpmProtState.idle ∧
        (handle_mission_item s env now m).1.transfer_in_progress = false ∧
        has_error_ack s.transfer_partner_sysid s.transfer_partner_compid s.mission_type
            (handle_mission_item s env now m).2 = true)) ∧
    (∀ (s : WpmState) (env : Env) (now : Nat) (m : ItemMsg),
       checkTarget env m.target_system m.target_component = true →
       m.mission_type = s.mission_type →
       s.state = WpmProtState.getlist →
       (m.seq : Int) ≠ s.transfer_seq →
       handle_mission_item s env now m =
         ({ s with int_mode := false, time_last_recv := now }, [])) := by
  constructor
  · intro s env now m h1 h2 h3 h4
    have hb2 : (m.mission_type != s.mission_type) = false := by simp [h2]
    have hb4 : (((m.seq : Nat) : Int) != s.transfer_seq) = false := by simp [h4]
    unfold handle_mission_item handle_mission_item_both upload_item_write
    simp only [h1, hb2, hb4, h3, Bool.and_false, Bool.false_eq_true, if_false,
      beq_self_eq_true, if_true, bne_self_eq_false, reduceCtorEq, beq_iff_eq,
      ite_true, ite_false, Bool.and_true, Bool.true_and]
    by_cases hret :
      (parse_mavlink_mission_item false m).2.2 = MAV_MISSION_ACCEPTED
    case neg =>
      have hbret :
          ((parse_mavlink_mission_item false m).2.2 != MAV_MISSION_ACCEPTED) = true := by
        simp [hret]
      right
      simp only [hbret, if_true, ite_true]
      refine ⟨by simp, by simp, ?_⟩
      simp [send_mission_ack, hret]
    case pos =>
      have hbret :
          ((parse_mavlink_mission_item false m).2.2 != MAV_MISSION_ACCEPTED) = false := by
        simp [hret]
      simp only [hbret, Bool.false_eq_true, if_false, ite_false]
      by_cases ht0 : s.mission_type = 0
      · simp only [ht0, if_true, ite_true, MAV_MISSION_TYPE_MISSION, beq_self_eq_true]
        by_cases hcross :
          ((parse_mavlink_mission_item false m).2.1.nav_cmd ==
              MAV_CMD_NAV_FENCE_POLYGON_VERTEX_INCLUSION ||
            (parse_mavlink_mission_item false m).2.1.nav_cmd ==
              MAV_CMD_NAV_FENCE_POLYGON_VERTEX_EXCLUSION ||
            (parse_mavlink_mission_item false m).2.1.nav_cmd ==
              MAV_CMD_NAV_FENCE_CIRCLE_INCLUSION ||
            (parse_mavlink_mission_item false m).2.1.nav_cmd ==
              MAV_CMD_NAV_FENCE_CIRCLE_EXCLUSION ||
            (parse_mavlink_mission_item false m).2.1.nav_cmd ==
              MAV_CMD_NAV_RALLY_POINT) = true
        · right
          simp only [hcross, if_true, ite_true]
          refine ⟨by simp, by simp, ?_⟩
          simp [send_mission_ack, MAV_MISSION_ERROR, MAV_MISSION_ACCEPTED]
        · simp only [hcross, Bool.false_eq_true, if_false, ite_false]
          by_cases hw :
            env.dmWriteOk (DmKey.waypoints s.transfer_dataman_id) m.seq = true
          · left
            simp [hw, apply_ite (@Prod.fst WpmState (List Out)),
              apply_ite WpmState.transfer_seq, apply_ite WpmState.transfer_count,
              apply_ite WpmState.mission_type]
          · right
            have hw2 : env.dmWriteOk (DmKey.waypoints s.transfer_dataman_id) m.seq = false := by
              simpa using hw
            simp only [hw2, Bool.not_false, Bool.true_or, if_true, ite_true]
            refine ⟨by simp, by simp, ?_⟩
            simp [send_mission_ack, MAV_MISSION_ERROR, MAV_MISSION_ACCEPTED]
      · by_cases ht1 : s.mission_type = 1
        · simp only [ht0, ht1, MAV_MISSION_TYPE_MISSION, MAV_MISSION_TYPE_FENCE,
            beq_self_eq_true, if_true, ite_true, beq_iff_eq, ite_false,
            Bool.false_eq_true, if_false, one_ne_zero]
          by_cases hpoly :
            ((parse_mavlink_mission_item false m).2.1.nav_cmd ==
                MAV_CMD_NAV_FENCE_POLYGON_VERTEX_INCLUSION ||
              (parse_mavlink_mission_item false m).2.1.nav_cmd ==
                MAV_CMD_NAV_FENCE_POLYGON_VERTEX_EXCLUSION) = true
          · simp only [hpoly, if_true, ite_true]
            by_cases hvert : (parse_mavlink_mission_item false m).2.1.vertex_count < 3
            · right
              simp only [hvert, if_true, ite_true]
              refine ⟨by simp, by simp, ?_⟩
              simp [send_mission_ack, MAV_MISSION_ERROR, MAV_MISSION_ACCEPTED]
            · simp only [hvert, if_false, ite_false]
              by_cases hw : env.dmWriteOk DmKey.fencePoints (m.seq + 1) = true
              · left
                simp [hw, apply_ite (@Prod.fst WpmState (List Out)),
              apply_ite WpmState.transfer_seq, apply_ite WpmState.transfer_count,
              apply_ite WpmState.mission_type]
              · right
                have hw2 : env.dmWriteOk DmKey.fencePoints (m.seq + 1) = false := by
                  simpa using hw
                simp only [hw2, Bool.not_false, Bool.true_or, if_true, ite_true]
                refine ⟨by simp, by simp, ?_⟩
                simp [send_mission_ack, MAV_MISSION_ERROR, MAV_MISSION_ACCEPTED]
          · simp only [hpoly, Bool.false_eq_true, if_false, ite_false]
            by_cases hw : env.dmWriteOk DmKey.fencePoints (m.seq + 1) = true
            · left
              simp [hw, apply_ite (@Prod.fst WpmState (List Out)),
              apply_ite WpmState.transfer_seq, apply_ite WpmState.transfer_count,
              apply_ite WpmState.mission_type]
            · right
              have hw2 : env.dmWriteOk DmKey.fencePoints (m.seq + 1) = false := by
                simpa using hw
              simp only [hw2, Bool.not_false, Bool.true_or, if_true, ite_true]
              refine ⟨by simp, by simp, ?_⟩
              simp [send_mission_ack, MAV_MISSION_ERROR, MAV_MISSION_ACCEPTED]
        · by_cases ht2 : s.mission_type = 2
          · simp only [ht0, ht1, ht2, MAV_MISSION_TYPE_MISSION, MAV_MISSION_TYPE_FENCE,
              MAV_MISSION_TYPE_RALLY, beq_self_eq_true, if_true, ite_true, beq_iff_eq,
              Bool.false_eq_true, if_false, ite_false, OfNat.ofNat_ne_one, OfNat.ofNat_ne_zero]
            by_cases hw : env.dmWriteOk DmKey.safePoints (m.seq + 1) = true
            · left
              simp [hw, apply_ite (@Prod.fst WpmState (List Out)),
              apply_ite WpmState.transfer_seq, apply_ite WpmState.transfer_count,
              apply_ite WpmState.mission_type]
            · right
              have hw2 : env.dmWriteOk DmKey.safePoints (m.seq + 1) = false := by
                simpa using hw
              simp only [hw2, Bool.not_false, Bool.true_or, if_true, ite_true]
              refine ⟨by simp, by simp, ?_⟩
              simp [send_mission_ack, MAV_MISSION_ERROR, MAV_MISSION_ACCEPTED]
          · left
            simp [MAV_MISSION_TYPE_MISSION, MAV_MISSION_TYPE_FENCE,
              MAV_MISSION_TYPE_RALLY, ht0, ht1, ht2,
              apply_ite (@Prod.fst WpmState (List Out)),
              apply_ite WpmState.transfer_seq, apply_ite WpmState.transfer_count,
              apply_ite WpmState.mission_type]
  · intro s env now m h1 h2 h3 h4
    have hb2 : (m.mission_type != s.mission_type) = false := by simp [h2]
    have hb4 : (((m.seq : Nat) : Int) != s.transfer_seq) = true := by simp [h4]
    unfold handle_mission_item handle_mission_item_both
    simp only [h1, hb2, hb4, h3, beq_self_eq_true, Bool.and_true, Bool.true_and,
      Bool.false_eq_true, if_false, if_true, ite_true, ite_false]

/-- C3 (amended) witness: a valid waypoint item at the expected seq 0
advances the cursor to 1; an item at seq 1 (unexpected) is silently
dropped with no output. -/
theorem C3_item_seq_discipline_witness :
    ((handle_mission_item { exState with state := WpmProtState.getlist, transfer_in_progress := true, transfer_count := 3, transfer_dataman_id := 1 } exEnv 1000
        { srcSys := 5, srcComp := 5, target_system := 1, target_component := 1,
          seq := 0, frame := 0, command := 16, current := 1, autocontinue := 1,
          param1 := 0, param2 := 0, param3 := 0, param4 := 0, x := 47, y := 8,
          xInt := 0, yInt := 0, z := 100, mission_type := 0 }).1.transfer_seq =
        ((0 : Nat) : Int) + 1 ∨
      ((handle_mission_item { exState with state := WpmProtState.getlist, transfer_in_progress := true, transfer_count := 3, transfer_dataman_id := 1 } exEnv 1000
          { srcSys := 5, srcComp := 5, target_system := 1, target_component := 1,
            seq := 0, frame := 0, command := 16, current := 1, autocontinue := 1,
            param1 := 0, param2 := 0, param3 := 0, param4 := 0, x := 47, y := 8,
            xInt := 0, yInt := 0, z := 100, mission_type := 0 }).1.state =
          WpmProtState.idle ∧
       (handle_mission_item { exState with state := WpmProtState.getlist, transfer_in_progress := true, transfer_count := 3, transfer_dataman_id := 1 } exEnv 1000
          { srcSys := 5, srcComp := 5, target_system := 1, target_component := 1,
            seq := 0, frame := 0, command := 16, current := 1, autocontinue := 1,
            param1 := 0, param2 := 0, param3 := 0, param4 := 0, x := 47, y := 8,
            xInt := 0, yInt := 0, z := 100, mission_type := 0 }).1.transfer_in_progress =
          false ∧
       has_error_ack 5 5 0
           (handle_mission_item { exState with state := WpmProtState.getlist, transfer_in_progress := true, transfer_count := 3, transfer_dataman_id := 1 } exEnv 1000
              { srcSys := 5, srcComp := 5, target_system := 1, target_component := 1,
                seq := 0, frame := 0, command := 16, current := 1, autocontinue := 1,
                param1 := 0, param2 := 0, param3 := 0, param4 := 0, x := 47, y := 8,
                xInt := 0, yInt := 0, z := 100, mission_type := 0 }).2 = true)) ∧
    handle_mission_item { exState with state := WpmProtState.getlist, transfer_in_progress := true, transfer_count := 3, transfer_dataman_id := 1 } exEnv 1000
        { srcSys := 5, srcComp := 5, target_system := 1, target_component := 1,
          seq := 1, frame := 0, command := 16, current := 0, autocontinue := 1,
          param1 := 0, param2 := 0, param3 := 0, param4 := 0, x := 47, y := 8,
          xInt := 0, yInt := 0, z := 100, mission_type := 0 } =
      ({ exState with state := WpmProtState.getlist, transfer_in_progress := true, transfer_count := 3, transfer_dataman_id := 1, int_mode := false, time_last_recv := 1000 }, []) := by
  constructor
  · exact C3_item_seq_discipline.1
      { exState with state := WpmProtState.getlist, transfer_in_progress := true, transfer_count := 3, transfer_dataman_id := 1 }
      exEnv 1000
      { srcSys := 5, srcComp := 5, target_system := 1, target_component := 1,
        seq := 0, frame := 0, command := 16, current := 1, autocontinue := 1,
        param1 := 0, param2 := 0, param3 := 0, param4 := 0, x := 47, y := 8,
        xInt := 0, yInt := 0, z := 100, mission_type := 0 }
      (by decide) (by decide) (by decide) (by decide)
  · exact C3_item_seq_discipline.2
      { exState with state := WpmProtState.getlist, transfer_in_progress := true, transfer_count := 3, transfer_dataman_id := 1 }
      exEnv 1000
      { srcSys := 5, srcComp := 5, target_system := 1, target_component := 1,
        seq := 1, frame := 0, command := 16, current := 0, autocontinue := 1,
        param1 := 0, param2 := 0, param3 := 0, param4 := 0, x := 47, y := 8,
        xInt := 0, yInt := 0, z := 100, mission_type := 0 }
      (by decide) (by decide) (by decide) (by decide)

/-- C4: in SENDLIST, for a properly targeted request from the transfer
partner with matching mission type: `seq = transfer_seq` (with
`transfer_seq < transfer_count`) advances the cursor and sends the
requested item (when it is readable and in range), `seq =
transfer_seq - 1` resends it without advancing, and any other seq
produces an `ACK(ERROR)` and a transition to IDLE. -/
theorem C4_request_seq_discipline :
    (∀ (s : WpmState) (env : Env) (now : Nat) (m : RequestMsg),
       checkTarget env m.target_system m.target_component = true →
       m.srcSys = s.transfer_partner_sysid →
       m.srcComp = s.transfer_partner_compid →
       s.state = WpmProtState.sendlist →
       m.mission_type = s.mission_type →
       (m.seq : Int) = s.transfer_seq →
       s.transfer_seq < (s.transfer_count : Int) →
       m.seq < current_item_count s →
       mission_item_read_ok s env m.seq = true →
       (handle_mission_request_both s env now m).1.transfer_seq = s.transfer_seq + 1 ∧
       (handle_mission_request_both s env now m).1.state = WpmProtState.sendlist ∧
       (∃ cur w, Out.missionItemOut s.int_mode s.transfer_partner_sysid
           s.transfer_partner_compid m.seq cur w ∈
             (handle_mission_request_both s env now m).2)) ∧
    (∀ (s : WpmState) (env : Env) (now : Nat) (m : RequestMsg),
       checkTarget env m.target_system m.target_component = true →
       m.srcSys = s.transfer_partner_sysid →
       m.srcComp = s.transfer_partner_compid →
       s.state = WpmProtState.sendlist →
       m.mission_type = s.mission_type →
       (m.seq : Int) = s.transfer_seq - 1 →
       m.seq < current_item_count s →
       mission_item_read_ok s env m.seq = true →
       (handle_mission_request_both s env now m).1.transfer_seq = s.transfer_seq ∧
       (handle_mission_request_both s env now m).1.state = WpmProtState.sendlist ∧
       (∃ cur w, Out.missionItemOut s.int_mode s.transfer_partner_sysid
           s.transfer_partner_compid m.seq cur w ∈
             (handle_mission_request_both s env now m).2)) ∧
    (∀ (s : WpmState) (env : Env) (now : Nat) (m : RequestMsg),
       checkTarget env m.target_system m.target_component = true →
       m.srcSys = s.transfer_partner_sysid →
       m.srcComp = s.transfer_partner_compid →
       s.state = WpmProtState.sendlist →
       m.mission_type = s.mission_type →
       ¬ ((m.seq : Int) = s.transfer_seq ∧ s.transfer_seq < (s.transfer_count : Int)) →
       (m.seq : Int) ≠ s.transfer_seq - 1 →
       (handle_mission_request_both s env now m).1.state = WpmProtState.idle ∧
       has_error_ack s.transfer_partner_sysid s.transfer_partner_compid s.mission_type
           (handle_mission_request_both s env now m).2 = true) := by
  refine ⟨?_, ?_, ?_⟩
  · intro s env now m h1 h2 h3 h4 h5 h6 h7 h8 h9
    have hb5 : (s.mission_type != m.mission_type) = false := by simp [h5]
    have hb6 : (((m.seq : Nat) : Int) == s.transfer_seq &&
        s.transfer_seq < (s.transfer_count : Int)) = true := by
      simp [h6, h7]
    have hb4 : (s.state == WpmProtState.sendlist) = true := by simp [h4]
    unfold handle_mission_request_both
    simp only [h1, h2, h3, hb4, hb5, hb6, beq_self_eq_true, Bool.true_and,
      Bool.and_true, Bool.false_eq_true, if_false, if_true, ite_true, ite_false,
      decide_True, decide_False, reduceCtorEq, beq_iff_eq]
    have h8x : m.seq < current_item_count { s with time_last_recv := now, transfer_seq := s.transfer_seq + 1 } := by
      simpa [current_item_count, WpmState.countIdx] using h8
    rw [if_pos h8x]
    refine ⟨by simp, by simp [h4], ?_⟩
    by_cases ht0 : s.mission_type = 0
    · have hro : (match env.dmRead (DmKey.waypoints s.dataman_id) m.seq with
          | some (DmData.item _) => true
          | _ => false) = true := by
        simpa [mission_item_read_ok, ht0, MAV_MISSION_TYPE_MISSION] using h9
      rcases hr : env.dmRead (DmKey.waypoints s.dataman_id) m.seq with _ | d
      · rw [hr] at hro; simp at hro
      · cases d <;> rw [hr] at hro <;> simp at hro
        all_goals
          unfold send_mission_item
          simp [ht0, MAV_MISSION_TYPE_MISSION, MAV_MISSION_TYPE_FENCE,
            MAV_MISSION_TYPE_RALLY, hr]
    · by_cases ht1 : s.mission_type = 1
      · have hro : (match env.dmRead DmKey.fencePoints (m.seq + 1) with
            | some (DmData.fencePoint _) => true
            | _ => false) = true := by
          simpa [mission_item_read_ok, ht0, ht1, MAV_MISSION_TYPE_MISSION,
            MAV_MISSION_TYPE_FENCE] using h9
        rcases hr : env.dmRead DmKey.fencePoints (m.seq + 1) with _ | d
        · rw [hr] at hro; simp at hro
        · cases d <;> rw [hr] at hro <;> simp at hro
          all_goals
            unfold send_mission_item
            simp [ht0, ht1, MAV_MISSION_TYPE_MISSION, MAV_MISSION_TYPE_FENCE,
              MAV_MISSION_TYPE_RALLY, hr]
      · by_cases ht2 : s.mission_type = 2
        · have hro : (match env.dmRead DmKey.safePoints (m.seq + 1) with
              | some (DmData.safePoint _) => true
              | _ => false) = true := by
            simpa [mission_item_read_ok, ht0, ht1, ht2, MAV_MISSION_TYPE_MISSION,
              MAV_MISSION_TYPE_FENCE, MAV_MISSION_TYPE_RALLY] using h9
          rcases hr : env.dmRead DmKey.safePoints (m.seq + 1) with _ | d
          · rw [hr] at hro; simp at hro
          · cases d <;> rw [hr] at hro <;> simp at hro
            all_goals
              unfold send_mission_item
              simp [ht0, ht1, ht2, MAV_MISSION_TYPE_MISSION, MAV_MISSION_TYPE_FENCE,
                MAV_MISSION_TYPE_RALLY, hr]
        · exfalso
          simp [mission_item_read_ok, ht0, ht1, ht2, MAV_MISSION_TYPE_MISSION,
            MAV_MISSION_TYPE_FENCE, MAV_MISSION_TYPE_RALLY] at h9
  · intro s env now m h1 h2 h3 h4 h5 h6 h7 h8
    have hb5 : (s.mission_type != m.mission_type) = false := by simp [h5]
    have hb6a : (((m.seq : Nat) : Int) == s.transfer_seq &&
        s.transfer_seq < (s.transfer_count : Int)) = false := by
      have : ((m.seq : Nat) : Int) ≠ s.transfer_seq := by omega
      simp [this]
    have hb6b : (((m.seq : Nat) : Int) == s.transfer_seq - 1) = true := by simp [h6]
    have hb4 : (s.state == WpmProtState.sendlist) = true := by simp [h4]
    unfold handle_mission_request_both
    simp only [h1, h2, h3, hb4, hb5, hb6a, hb6b, beq_self_eq_true, Bool.true_and,
      Bool.and_true, Bool.false_eq_true, if_false, if_true, ite_true, ite_false,
      reduceCtorEq, beq_iff_eq]
    have h7x : m.seq < current_item_count { s with time_last_recv := now } := by
      simpa [current_item_count, WpmState.countIdx] using h7
    rw [if_pos h7x]
    refine ⟨by simp, by simp [h4], ?_⟩
    by_cases ht0 : s.mission_type = 0
    · have hro : (match env.dmRead (DmKey.waypoints s.dataman_id) m.seq with
          | some (DmData.item _) => true
          | _ => false) = true := by
        simpa [mission_item_read_ok, ht0, MAV_MISSION_TYPE_MISSION] using h8
      rcases hr : env.dmRead (DmKey.waypoints s.dataman_id) m.seq with _ | d
      · rw [hr] at hro; simp at hro
      · cases d <;> rw [hr] at hro <;> simp at hro
        all_goals
          unfold send_mission_item
          simp [ht0, MAV_MISSION_TYPE_MISSION, MAV_MISSION_TYPE_FENCE,
            MAV_MISSION_TYPE_RALLY, hr]
    · by_cases ht1 : s.mission_type = 1
      · have hro : (match env.dmRead DmKey.fencePoints (m.seq + 1) with
            | some (DmData.fencePoint _) => true
            | _ => false) = true := by
          simpa [mission_item_read_ok, ht0, ht1, MAV_MISSION_TYPE_MISSION,
            MAV_MISSION_TYPE_FENCE] using h8
        rcases hr : env.dmRead DmKey.fencePoints (m.seq + 1) with _ | d
        · rw [hr] at hro; simp at hro
        · cases d <;> rw [hr] at hro <;> simp at hro
          all_goals
            unfold send_mission_item
            simp [ht0, ht1, MAV_MISSION_TYPE_MISSION, MAV_MISSION_TYPE_FENCE,
              MAV_MISSION_TYPE_RALLY, hr]
      · by_cases ht2 : s.mission_type = 2
        · have hro : (match env.dmRead DmKey.safePoints (m.seq + 1) with
              | some (DmData.safePoint _) => true
              | _ => false) = true := by
            simpa [mission_item_read_ok, ht0, ht1, ht2, MAV_MISSION_TYPE_MISSION,
              MAV_MISSION_TYPE_FENCE, MAV_MISSION_TYPE_RALLY] using h8
          rcases hr : env.dmRead DmKey.safePoints (m.seq + 1) with _ | d
          · rw [hr] at hro; simp at hro
          · cases d <;> rw [hr] at hro <;> simp at hro
            all_goals
              unfold send_mission_item
              simp [ht0, ht1, ht2, MAV_MISSION_TYPE_MISSION, MAV_MISSION_TYPE_FENCE,
                MAV_MISSION_TYPE_RALLY, hr]
        · exfalso
          simp [mission_item_read_ok, ht0, ht1, ht2, MAV_MISSION_TYPE_MISSION,
            MAV_MISSION_TYPE_FENCE, MAV_MISSION_TYPE_RALLY] at h8
  · intro s env now m h1 h2 h3 h4 h5 h6 h7
    have hb5 : (s.mission_type != m.mission_type) = false := by simp [h5]
    have hb6a : (((m.seq : Nat) : Int) == s.transfer_seq &&
        s.transfer_seq < (s.transfer_count : Int)) = false := by
      rcases Decidable.em (((m.seq : Nat) : Int) = s.transfer_seq) with he | he
      · have : ¬ s.transfer_seq < (s.transfer_count : Int) := fun hlt => h6 ⟨he, hlt⟩
        simp [he, this]
      · simp [he]
    have hb6b : (((m.seq : Nat) : Int) == s.transfer_seq - 1) = false := by simp [h7]
    have hb4 : (s.state == WpmProtState.sendlist) = true := by simp [h4]
    unfold handle_mission_request_both
    simp only [h1, h2, h3, hb4, hb5, hb6a, hb6b, beq_self_eq_true, Bool.true_and,
      Bool.and_true, Bool.false_eq_true, if_false, if_true, ite_true, ite_false,
      reduceCtorEq, beq_iff_eq]
    refine ⟨by simp, ?_⟩
    simp [send_mission_ack, MAV_MISSION_ERROR, MAV_MISSION_ACCEPTED]

/-- C4 witness: with 3 items and cursor at 1, a request for seq 1
advances and sends the item, a request for seq 0 resends without
advancing, and a request for seq 3 yields `ACK(ERROR)` and IDLE. -/
theorem C4_request_seq_discipline_witness :
    ((handle_mission_request_both { exState with state := WpmProtState.sendlist, transfer_count := 3, transfer_seq := 1 } exEnv 1000
        { srcSys := 5, srcComp := 5, target_system := 1, target_component := 1,
          seq := 1, mission_type := 0 }).1.transfer_seq = 1 + 1 ∧
     (handle_mission_request_both { exState with state := WpmProtState.sendlist, transfer_count := 3, transfer_seq := 1 } exEnv 1000
        { srcSys := 5, srcComp := 5, target_system := 1, target_component := 1,
          seq := 1, mission_type := 0 }).1.state = WpmProtState.sendlist ∧
     (∃ cur w, Out.missionItemOut false 5 5 1 cur w ∈
        (handle_mission_request_both { exState with state := WpmProtState.sendlist, transfer_count := 3, transfer_seq := 1 } exEnv 1000
          { srcSys := 5, srcComp := 5, target_system := 1, target_component := 1,
            seq := 1, mission_type := 0 }).2)) ∧
    ((handle_mission_request_both { exState with state := WpmProtState.sendlist, transfer_count := 3, transfer_seq := 1 } exEnv 1000
        { srcSys := 5, srcComp := 5, target_system := 1, target_component := 1,
          seq := 0, mission_type := 0 }).1.transfer_seq = 1) ∧
    ((handle_mission_request_both { exState with state := WpmProtState.sendlist, transfer_count := 3, transfer_seq := 1 } exEnv 1000
        { srcSys := 5, srcComp := 5, target_system := 1, target_component := 1,
          seq := 3, mission_type := 0 }).1.state = WpmProtState.idle ∧
     has_error_ack 5 5 0
        (handle_mission_request_both { exState with state := WpmProtState.sendlist, transfer_count := 3, transfer_seq := 1 } exEnv 1000
          { srcSys := 5, srcComp := 5, target_system := 1, target_component := 1,
            seq := 3, mission_type := 0 }).2 = true) := by
  refine ⟨?_, ?_, ?_⟩
  · exact C4_request_seq_discipline.1
      { exState with state := WpmProtState.sendlist, transfer_count := 3, transfer_seq := 1 }
      exEnv 1000
      { srcSys := 5, srcComp := 5, target_system := 1, target_component := 1,
        seq := 1, mission_type := 0 }
      (by decide) (by decide) (by decide) (by decide) (by decide) (by decide)
      (by decide) (by decide) (by decide)
  · exact (C4_request_seq_discipline.2.1
      { exState with state := WpmProtState.sendlist, transfer_count := 3, transfer_seq := 1 }
      exEnv 1000
      { srcSys := 5, srcComp := 5, target_system := 1, target_component := 1,
        seq := 0, mission_type := 0 }
      (by decide) (by decide) (by decide) (by decide) (by decide) (by decide)
      (by decide) (by decide)).1
  · exact C4_request_seq_discipline.2.2
      { exState with state := WpmProtState.sendlist, transfer_count := 3, transfer_seq := 1 }
      exEnv 1000
      { srcSys := 5, srcComp := 5, target_system := 1, target_component := 1,
        seq := 3, mission_type := 0 }
      (by decide) (by decide) (by decide) (by decide) (by decide) (by decide)
      (by decide)

/-! ## C2 helper lemmas: the fence lock is free in any post-IDLE state -/

set_option maxRecDepth 8192 in
set_option maxHeartbeats 4000000 in
lemma lock_free_ack (s : WpmState) (env : Env) (now : Nat) (m : AckMsg)
    (h : s.state ≠ WpmProtState.idle)
    (hp : (handle_mission_ack s env now m).1.state = WpmProtState.idle) :
    (handle_mission_ack s env now m).1.geofence_locked = false := by
  unfold handle_mission_ack at hp ⊢
  dsimp only [] at hp ⊢
  split_ifs at hp ⊢ <;>
    first
      | (simp; done)
      | (simp at hp ⊢; done)
      | (simp at hp ⊢; exact absurd hp h)
      | simp_all

set_option maxRecDepth 8192 in
set_option maxHeartbeats 4000000 in
lemma lock_free_set_current (s : WpmState) (env : Env) (now : Nat) (m : SetCurrentMsg)
    (h : s.state ≠ WpmProtState.idle)
    (hp : (handle_mission_set_current s env now m).1.state = WpmProtState.idle) :
    (handle_mission_set_current s env now m).1.geofence_locked = false := by
  unfold handle_mission_set_current update_active_mission at hp ⊢
  dsimp only [] at hp ⊢
  split_ifs at hp ⊢ <;>
    first
      | (simp; done)
      | (simp at hp ⊢; done)
      | (simp at hp ⊢; exact absurd hp h)
      | simp_all

set_option maxRecDepth 8192 in
set_option maxHeartbeats 4000000 in
lemma lock_free_request_list (s : WpmState) (env : Env) (now : Nat) (m : RequestListMsg)
    (h : s.state ≠ WpmProtState.idle)
    (hp : (handle_mission_request_list s env now m).1.state = WpmProtState.idle) :
    (handle_mission_request_list s env now m).1.geofence_locked = false := by
  unfold handle_mission_request_list at hp ⊢
  dsimp only [] at hp ⊢
  split_ifs at hp ⊢ <;>
    first
      | (simp; done)
      | (simp at hp ⊢; done)
      | (simp at hp ⊢; exact absurd hp h)
      | simp_all

set_option maxRecDepth 8192 in
set_option maxHeartbeats 4000000 in
lemma lock_free_request_both (s : WpmState) (env : Env) (now : Nat) (m : RequestMsg)
    (h : s.state ≠ WpmProtState.idle)
    (hp : (handle_mission_request_both s env now m).1.state = WpmProtState.idle) :
    (handle_mission_request_both s env now m).1.geofence_locked = false := by
  unfold handle_mission_request_both at hp ⊢
  dsimp only [] at hp ⊢
  split_ifs at hp ⊢ <;>
    first
      | (simp; done)
      | (simp at hp ⊢; done)
      | (simp at hp ⊢; exact absurd hp h)
      | simp_all

set_option maxRecDepth 8192 in
set_option maxHeartbeats 4000000 in
lemma lock_free_count (s : WpmState) (env : Env) (now : Nat) (m : CountMsg)
    (h : s.state ≠ WpmProtState.idle)
    (hp : (handle_mission_count s env now m).1.state = WpmProtState.idle) :
    (handle_mission_count s env now m).1.geofence_locked = false := by
  unfold handle_mission_count at hp ⊢
  dsimp only [] at hp ⊢
  split_ifs at hp ⊢ <;>
    first
      | (simp; done)
      | (simp at hp ⊢; done)
      | (simp at hp ⊢; exact absurd hp h)
      | simp_all

set_option maxRecDepth 8192 in
set_option maxHeartbeats 4000000 in
lemma lock_free_item_both (s : WpmState) (env : Env) (now : Nat) (m : ItemMsg)
    (h : s.state ≠ WpmProtState.idle)
    (hp : (handle_mission_item_both s env now m).1.state = WpmProtState.idle) :
    (handle_mission_item_both s env now m).1.geofence_locked = false := by
  unfold handle_mission_item_both at hp ⊢
  by_cases hc1 : checkTarget env m.target_system m.target_component = true
  case neg =>
    rw [if_neg hc1] at hp
    exact absurd (by simpa using hp) h
  rw [if_pos hc1] at hp ⊢
  by_cases hc2 : (m.mission_type != s.mission_type) = true
  case pos =>
    rw [if_pos hc2] at hp
    exact absurd (by simpa using hp) h
  rw [if_neg hc2] at hp ⊢
  by_cases hc3 :
    (s.state == WpmProtState.getlist && ((m.seq : Nat) : Int) != s.transfer_seq) = true
  case pos =>
    rw [if_pos hc3] at hp
    exact absurd (by simpa using hp) h
  rw [if_neg hc3] at hp ⊢
  by_cases hc4 : (s.state == WpmProtState.idle) = true
  case pos => exact absurd (by simpa using hc4) h
  rw [if_neg hc4] at hp ⊢
  by_cases hc5 : (s.state != WpmProtState.getlist) = true
  case pos =>
    rw [if_pos hc5] at hp
    exact absurd (by simpa using hp) h
  rw [if_neg hc5] at hp ⊢
  dsimp only [] at hp ⊢
  by_cases hret :
    ((parse_mavlink_mission_item s.int_mode m).2.2 != MAV_MISSION_ACCEPTED) = true
  · rw [if_pos hret]
    simp
  · rw [if_neg hret] at hp ⊢
    by_cases hwf :
      ((upload_item_write { s with time_last_recv := now, int_mode := (parse_mavlink_mission_item s.int_mode m).1 } env m (parse_mavlink_mission_item s.int_mode m).2.1).2.2.1 ||
       (upload_item_write { s with time_last_recv := now, int_mode := (parse_mavlink_mission_item s.int_mode m).1 } env m (parse_mavlink_mission_item s.int_mode m).2.1).2.2.2) = true
    · rw [if_pos hwf]
      simp
    · rw [if_neg hwf] at hp ⊢
      simp only [apply_ite WpmState.transfer_count, upload_item_write_transfer_count,
        ite_self] at hp ⊢
      by_cases hfin : (((m.seq : Nat) : Int) + 1 == ((s.transfer_count : Nat) : Int)) = true
      · rw [if_pos hfin]
        simp
      · rw [if_neg hfin] at hp
        simp [apply_ite WpmState.state] at hp
        exact absurd hp h

set_option maxRecDepth 8192 in
set_option maxHeartbeats 4000000 in
lemma lock_free_clear_all (s : WpmState) (env : Env) (now : Nat) (m : ClearAllMsg)
    (h : s.state ≠ WpmProtState.idle)
    (hp : (handle_mission_clear_all s env now m).1.state = WpmProtState.idle) :
    (handle_mission_clear_all s env now m).1.geofence_locked = false := by
  unfold handle_mission_clear_all at hp ⊢
  dsimp only [] at hp ⊢
  split_ifs at hp ⊢ <;>
    first
      | (simp; done)
      | (simp at hp ⊢; done)
      | (simp at hp ⊢; exact absurd hp h)
      | simp_all

set_option maxRecDepth 8192 in
set_option maxHeartbeats 4000000 in
lemma lock_free_send_timeouts (s : WpmState) (env : Env) (now : Nat)
    (h : s.state ≠ WpmProtState.idle)
    (hp : (send_timeouts s env now).1.state = WpmProtState.idle) :
    (send_timeouts s env now).1.geofence_locked = false := by
  unfold send_timeouts at hp ⊢
  dsimp only [] at hp ⊢
  split_ifs at hp ⊢ <;>
    first
      | (simp; done)
      | (simp at hp ⊢; done)
      | (simp at hp ⊢; exact absurd hp h)
      | simp_all

set_option maxRecDepth 8192 in
set_option maxHeartbeats 4000000 in
@[simp]
lemma send_progress_state (s : WpmState) (env : Env) (now : Nat) :
    (send_progress s env now).1.state = s.state := by
  unfold send_progress
  dsimp only []
  split <;> split_ifs <;> simp

set_option maxRecDepth 8192 in
set_option maxHeartbeats 4000000 in
@[simp]
lemma send_progress_lock (s : WpmState) (env : Env) (now : Nat) :
    (send_progress s env now).1.geofence_locked = s.geofence_locked := by
  unfold send_progress
  dsimp only []
  split <;> split_ifs <;> simp

/-- C2: on every execution path that takes the endpoint from a
non-IDLE state back to IDLE — any inbound message (including every
FENCE-upload completion, protocol, codec or storage error) or the
action timeout in `send()` — the fence namespace lock is not held once
the endpoint is in IDLE (the unique IDLE entry point releases it). -/
theorem C2_fence_lock_released_on_idle :
    (∀ (s : WpmState) (env : Env) (now : Nat) (msg : InMsg),
       s.state ≠ WpmProtState.idle →
       (handle_message s env now msg).1.state = WpmProtState.idle →
       (handle_message s env now msg).1.geofence_locked = false) ∧
    (∀ (s : WpmState) (env : Env) (now : Nat),
       s.state ≠ WpmProtState.idle →
       (send_tick s env now).1.state = WpmProtState.idle →
       (send_tick s env now).1.geofence_locked = false) := by
  constructor
  · intro s env now msg h hp
    cases msg with
    | ack m => exact lock_free_ack s env now m h hp
    | setCurrent m => exact lock_free_set_current s env now m h hp
    | requestList m => exact lock_free_request_list s env now m h hp
    | request m =>
        exact lock_free_request_both { s with int_mode := false } env now m h hp
    | requestInt m =>
        exact lock_free_request_both { s with int_mode := true } env now m h hp
    | count m => exact lock_free_count s env now m h hp
    | item m =>
        exact lock_free_item_both { s with int_mode := false } env now m h hp
    | itemInt m =>
        exact lock_free_item_both { s with int_mode := true } env now m h hp
    | clearAll m => exact lock_free_clear_all s env now m h hp
  · intro s env now h hp
    have hps : (send_progress s env now).1.state ≠ WpmProtState.idle := by
      simpa using h
    have ht : (send_tick s env now).1 =
        (send_timeouts (send_progress s env now).1 env now).1 := rfl
    rw [ht] at hp ⊢
    exact lock_free_send_timeouts _ env now hps hp

/-- C2 witness: a locked FENCE upload in GETLIST hits the action
timeout; the resulting state is IDLE with the lock released. -/
theorem C2_fence_lock_released_on_idle_witness :
    ({ exState with state := WpmProtState.getlist, mission_type := 1, geofence_locked := true, transfer_in_progress := true, time_last_recv := 1 } : WpmState).state ≠ WpmProtState.idle ∧
    (send_tick { exState with state := WpmProtState.getlist, mission_type := 1, geofence_locked := true, transfer_in_progress := true, time_last_recv := 1 } exEnv 99999999).1.state = WpmProtState.idle ∧
    (send_tick { exState with state := WpmProtState.getlist, mission_type := 1, geofence_locked := true, transfer_in_progress := true, time_last_recv := 1 } exEnv 99999999).1.geofence_locked = false := by
  refine ⟨by decide, by decide, ?_⟩
  exact C2_fence_lock_released_on_idle.2
    { exState with state := WpmProtState.getlist, mission_type := 1, geofence_locked := true, transfer_in_progress := true, time_last_recv := 1 }
    exEnv 99999999 (by decide) (by decide)

/-- C1: starting a MISSION upload targets the inactive dataman id
(the complement of the active id), and during the upload every item
write goes to that id; the active id changes exactly when the upload
completes successfully (`ACK(ACCEPTED)`), in which case the persisted
mission header carrying the formerly-inactive id has been written and
published and the active id equals it. -/
theorem C1_upload_double_buffering :
    (∀ (s : WpmState) (env : Env) (now : Nat) (m : CountMsg),
       checkTarget env m.target_system m.target_component = true →
       s.state = WpmProtState.idle →
       s.transfer_in_progress = false →
       m.mission_type = MAV_MISSION_TYPE_MISSION →
       0 < m.count →
       m.count ≤ env.maxCount 0 →
       (handle_mission_count s env now m).1.state = WpmProtState.getlist ∧
       (handle_mission_count s env now m).1.transfer_dataman_id =
         (if s.dataman_id = 0 then 1 else 0) ∧
       (handle_mission_count s env now m).1.dataman_id = s.dataman_id) ∧
    (∀ (s : WpmState) (env : Env) (now : Nat) (m : ItemMsg),
       checkTarget env m.target_system m.target_component = true →
       m.mission_type = s.mission_type →
       s.mission_type = MAV_MISSION_TYPE_MISSION →
       s.state = WpmProtState.getlist →
       s.transfer_dataman_id ≠ s.dataman_id →
       (∀ k i v, Out.dmWrite k i v ∈ (handle_mission_item s env now m).2 →
          k = DmKey.waypoints s.transfer_dataman_id ∨ k = DmKey.missionState) ∧
       ((handle_mission_item s env now m).1.dataman_id ≠ s.dataman_id ↔
          Out.missionAck s.transfer_partner_sysid s.transfer_partner_compid
              MAV_MISSION_ACCEPTED MAV_MISSION_TYPE_MISSION ∈
            (handle_mission_item s env now m).2) ∧
       ((handle_mission_item s env now m).1.dataman_id ≠ s.dataman_id →
          (handle_mission_item s env now m).1.dataman_id = s.transfer_dataman_id ∧
          Out.dmWrite DmKey.missionState 0
              (DmData.mission ⟨s.transfer_dataman_id, s.transfer_count,
                 (handle_mission_item s env now m).1.current_seq⟩) ∈
            (handle_mission_item s env now m).2 ∧
          Out.orbPublish ⟨s.transfer_dataman_id, s.transfer_count,
              (handle_mission_item s env now m).1.current_seq⟩ ∈
            (handle_mission_item s env now m).2)) := by
  constructor
  · intro s env now m h1 h2 h3 h4 h5 h6
    have hb2 : (s.state == WpmProtState.idle) = true := by simp [h2]
    have hmaxb : ¬ m.count > env.maxCount 0 := by omega
    have hzero : ¬ m.count = 0 := by omega
    unfold handle_mission_count
    simp [h1, hb2, h3, h4, MAV_MISSION_TYPE_MISSION, MAV_MISSION_TYPE_FENCE,
      current_max_item_count, hmaxb, hzero]
  · intro s env now m h1 h2 ht0 h3 hneq
    have hm0 : m.mission_type = 0 := by
      rw [h2, ht0]; rfl
    have ht0n : s.mission_type = 0 := ht0
    unfold handle_mission_item handle_mission_item_both upload_item_write
    simp only [h1, hm0, ht0n, h3, MAV_MISSION_TYPE_MISSION, Bool.and_false,
      Bool.false_eq_true, if_false, beq_self_eq_true, if_true, bne_self_eq_false,
      reduceCtorEq, beq_iff_eq, ite_true, ite_false, Bool.and_true, Bool.true_and]
    by_cases hseq : (((m.seq : Nat) : Int) != s.transfer_seq) = true
    · simp only [hseq, if_true, ite_true]
      simp [hneq]
    · simp only [hseq, Bool.false_eq_true, if_false, ite_false]
      by_cases hret :
        (parse_mavlink_mission_item false m).2.2 = MAV_MISSION_ACCEPTED
      case neg =>
        have hbret :
            ((parse_mavlink_mission_item false m).2.2 != MAV_MISSION_ACCEPTED) = true := by
          simp [hret]
        have hretn : (0 : Nat) ≠ (parse_mavlink_mission_item false m).2.2 :=
          fun he => hret he.symm
        simp only [hbret, if_true, ite_true]
        simp [send_mission_ack, hneq, hret, hretn, MAV_MISSION_ACCEPTED]
      case pos =>
        have hbret :
            ((parse_mavlink_mission_item false m).2.2 != MAV_MISSION_ACCEPTED) = false := by
          simp [hret]
        simp only [hbret, Bool.false_eq_true, if_false, ite_false]
        by_cases hcross :
          ((parse_mavlink_mission_item false m).2.1.nav_cmd ==
              MAV_CMD_NAV_FENCE_POLYGON_VERTEX_INCLUSION ||
            (parse_mavlink_mission_item false m).2.1.nav_cmd ==
              MAV_CMD_NAV_FENCE_POLYGON_VERTEX_EXCLUSION ||
            (parse_mavlink_mission_item false m).2.1.nav_cmd ==
              MAV_CMD_NAV_FENCE_CIRCLE_INCLUSION ||
            (parse_mavlink_mission_item false m).2.1.nav_cmd ==
              MAV_CMD_NAV_FENCE_CIRCLE_EXCLUSION ||
            (parse_mavlink_mission_item false m).2.1.nav_cmd ==
              MAV_CMD_NAV_RALLY_POINT) = true
        · simp only [hcross, if_true, ite_true]
          simp [send_mission_ack, hneq, MAV_MISSION_ERROR, MAV_MISSION_ACCEPTED]
        · simp only [hcross, Bool.false_eq_true, if_false, ite_false]
          by_cases hw :
            env.dmWriteOk (DmKey.waypoints s.transfer_dataman_id) m.seq = true
          case neg =>
            have hw2 : env.dmWriteOk (DmKey.waypoints s.transfer_dataman_id) m.seq
                = false := by simpa using hw
            simp only [hw2, Bool.not_false, Bool.true_or, if_true, ite_true,
              Bool.false_and, Bool.false_eq_true, if_false]
            simp [send_mission_ack, hneq, MAV_MISSION_ERROR, MAV_MISSION_ACCEPTED]
            exact fun k i v hk _ _ => Or.inl hk
          case pos =>
            simp only [hw, Bool.not_true, Bool.false_or, Bool.true_and, if_true,
              ite_true, Bool.false_eq_true, if_false, ite_false]
            simp only [apply_ite WpmState.transfer_count, apply_ite WpmState.transfer_seq,
              apply_ite WpmState.mission_type, apply_ite WpmState.transfer_dataman_id,
              apply_ite WpmState.transfer_partner_sysid,
              apply_ite WpmState.transfer_partner_compid, ite_self]
            by_cases hfin : ((m.seq : Nat) : Int) + 1 = ((s.transfer_count : Nat) : Int)
            case pos =>
              rw [if_pos hfin]
              by_cases hcm : env.dmWriteOk DmKey.missionState 0 = true
              case pos =>
                simp [update_active_mission, hcm, send_mission_ack, hneq,
                  MAV_MISSION_ACCEPTED, MAV_MISSION_ERROR,
                  apply_ite WpmState.dataman_id, apply_ite WpmState.current_seq,
                  apply_ite WpmState.transfer_current_seq,
                  apply_ite WpmState.countMission, ite_self]
                exact fun k i v hkv =>
                  hkv.elim (fun hh => Or.inl hh.1) (fun hh => Or.inr hh.1)
              case neg =>
                have hcm2 : env.dmWriteOk DmKey.missionState 0 = false := by
                  simpa using hcm
                simp [update_active_mission, hcm2, send_mission_ack, hneq,
                  MAV_MISSION_ACCEPTED, MAV_MISSION_ERROR,
                  apply_ite WpmState.dataman_id, apply_ite WpmState.current_seq,
                  apply_ite WpmState.transfer_current_seq,
                  apply_ite WpmState.countMission, ite_self]
                exact fun k i v hkv =>
                  hkv.elim (fun hh => Or.inl hh.1) (fun hh => Or.inr hh.1)
            case neg =>
              rw [if_neg hfin]
              simp [send_mission_ack, hneq, MAV_MISSION_ACCEPTED, MAV_MISSION_ERROR,
                apply_ite WpmState.dataman_id, apply_ite WpmState.current_seq,
                ite_self]
              exact fun k i v hk _ _ => Or.inl hk
/-- C1 witness: from IDLE with active id 0, a MISSION count of 3
targets inactive id 1 without touching the active id; in GETLIST with
inactive id 1, receiving the last valid item swaps the active id
exactly when the completion `ACK(ACCEPTED)` is emitted. -/
theorem C1_upload_double_buffering_witness :
    ((handle_mission_count exState exEnv 1000
        { srcSys := 5, srcComp := 5, target_system := 1, target_component := 1,
          count := 3, mission_type := 0 }).1.state = WpmProtState.getlist ∧
     (handle_mission_count exState exEnv 1000
        { srcSys := 5, srcComp := 5, target_system := 1, target_component := 1,
          count := 3, mission_type := 0 }).1.transfer_dataman_id =
       (if exState.dataman_id = 0 then 1 else 0) ∧
     (handle_mission_count exState exEnv 1000
        { srcSys := 5, srcComp := 5, target_system := 1, target_component := 1,
          count := 3, mission_type := 0 }).1.dataman_id = exState.dataman_id) ∧
    ((handle_mission_item { exState with state := WpmProtState.getlist, transfer_in_progress := true, transfer_count := 1, transfer_dataman_id := 1 } exEnv 1000
        { srcSys := 5, srcComp := 5, target_system := 1, target_component := 1,
          seq := 0, frame := 0, command := 16, current := 1, autocontinue := 1,
          param1 := 0, param2 := 0, param3 := 0, param4 := 0, x := 47, y := 8,
          xInt := 0, yInt := 0, z := 100, mission_type := 0 }).1.dataman_id ≠
        ({ exState with state := WpmProtState.getlist, transfer_in_progress := true, transfer_count := 1, transfer_dataman_id := 1 } : WpmState).dataman_id ↔
      Out.missionAck 5 5 MAV_MISSION_ACCEPTED MAV_MISSION_TYPE_MISSION ∈
        (handle_mission_item { exState with state := WpmProtState.getlist, transfer_in_progress := true, transfer_count := 1, transfer_dataman_id := 1 } exEnv 1000
          { srcSys := 5, srcComp := 5, target_system := 1, target_component := 1,
            seq := 0, frame := 0, command := 16, current := 1, autocontinue := 1,
            param1 := 0, param2 := 0, param3 := 0, param4 := 0, x := 47, y := 8,
            xInt := 0, yInt := 0, z := 100, mission_type := 0 }).2) := by
  constructor
  · exact C1_upload_double_buffering.1 exState exEnv 1000
      { srcSys := 5, srcComp := 5, target_system := 1, target_component := 1,
        count := 3, mission_type := 0 }
      (by decide) (by decide) (by decide) (by decide) (by decide) (by decide)
  · exact (C1_upload_double_buffering.2
      { exState with state := WpmProtState.getlist, transfer_in_progress := true, transfer_count := 1, transfer_dataman_id := 1 }
      exEnv 1000
      { srcSys := 5, srcComp := 5, target_system := 1, target_component := 1,
        seq := 0, frame := 0, command := 16, current := 1, autocontinue := 1,
        param1 := 0, param2 := 0, param3 := 0, param4 := 0, x := 47, y := 8,
        xInt := 0, yInt := 0, z := 100, mission_type := 0 }
      (by decide) (by decide) (by decide) (by decide) (by decide)).2.1

end MavlinkMission
